import Mathlib

/-!
# HealthCare API assessment: the risk classifier, the aggregator and the fetchers

A shallow embedding of `src/utils/riskCalculator.js`, of the aggregation loop of
`collectAllPatientsData` in `src/App.js`, and of `fetchPatients` and
`fetchPatientsCarefully` in `src/services/api.js`, together with the JavaScript built-ins
the classifier calls (`parseInt`, `parseFloat`, `String.prototype.split`, `includes`,
`toLowerCase`, `ToString`, truthiness, `typeof`, strict equality with a string literal).

Conventions of the embedding

* The upstream of the fetchers is an arbitrary state machine: from its state and the page
  and limit of a request it gives an outcome (a parsed body, a non-success status, or no
  response) and its next state. A run records the requests sent and the calls of `wait`
  in order; the requests are sequential, as the `await`s of the source make them.

* A JavaScript string is a `List Char`.
* A JavaScript number is an IEEE-754 binary64 value. Every finite binary64 value is an
  integer multiple of `2^-1074`; `JSNumber.fin k` stands for `k * 2^-1074`. Decimal text is
  rounded to the nearest such value, ties to the even significand, as ECMAScript requires.
  The two zeros are not distinguished (nothing in the embedded code can tell them apart).
  Sums and products of numbers (`JSNumber.add`, `JSNumber.mul`) are the exact results
  rounded the same way; the delay `wait` hands to the timer, `waitDelay`, is computed
  with them.
* `parseInt` returns the exact integer it reads (`none` for `NaN`). The embedded code only
  compares that result with integer constants below `2^53`; rounding to binary64 is monotone
  and leaves those constants fixed, so every such comparison has the same outcome on the
  exact integer as on the rounded number.
-/

namespace HealthCare

/-! ## JavaScript values -/

/-- A JavaScript string. -/
abbrev JSString := List Char

/-- A JavaScript number: `NaN`, an infinity, or the finite value `k * 2^-1074`. -/
inductive JSNumber where
  | nan
  | inf (negative : Bool)
  | fin (k : Int)
  deriving DecidableEq, Repr

/-- The JavaScript values a record field can hold once the response has been through
`JSON.parse`, plus `undefined` for a field that is not there. -/
inductive JSValue where
  | undefined
  | null
  | boolean (b : Bool)
  | number (x : JSNumber)
  | string (s : JSString)
  deriving DecidableEq, Repr

/-! ## Rounding to binary64 -/

/-- The number of `2^-1074` units in one: `2^1074`. -/
def unitsPerOne : Nat := 1 <<< 1074

/-- The first magnitude, in units, that no finite binary64 value reaches: `2^1024` in
units. -/
def overflowUnits : Nat := 1 <<< 2098

/-- Nearest integer to `a / b`, ties to even. -/
def roundHalfEven (a b : Nat) : Nat :=
  let q := a / b
  let r := a % b
  if 2 * r < b then q
  else if b < 2 * r then q + 1
  else if q % 2 = 0 then q else q + 1

/-- The number of binary digits of `n`, counted within `fuel` steps (32 digits at a time
while there are that many). -/
def bitLengthAux : Nat → Nat → Nat
  | 0, _ => 0
  | fuel + 1, n =>
    if n = 0 then 0
    else if n < 4294967296 then bitLengthAux fuel (n / 2) + 1
    else bitLengthAux fuel (n >>> 32) + 32

/-- The number of binary digits of `n`. -/
def bitLength (n : Nat) : Nat := bitLengthAux n n

/-- The positive rational `p / q` rounded to the nearest binary64 magnitude, in units of
`2^-1074`; `none` when the result is infinite. Below `2^53` units every integer is a
binary64 value; above, a value keeps 53 significant bits. -/
def roundToDouble (p q : Nat) : Option Nat :=
  let P := p * unitsPerOne
  let f := P / q
  let r :=
    if f < 1 <<< 53 then roundHalfEven P q
    else
      let j := bitLength f - 53
      roundHalfEven P (q <<< j) <<< j
  if r < overflowUnits then some r else none

/-- The signed rational `± p / q` as a JavaScript number. -/
def JSNumber.ofRatio (negative : Bool) (p q : Nat) : JSNumber :=
  match roundToDouble p q with
  | some r => .fin (if negative then -(r : Int) else (r : Int))
  | none => .inf negative

/-- The number value of the natural number `n`: `n` rounded to binary64. -/
def JSNumber.ofNat (n : Nat) : JSNumber := JSNumber.ofRatio false n 1

/-- The sum `x + y` of two numbers: the exact sum, rounded to binary64. -/
def JSNumber.add : JSNumber → JSNumber → JSNumber
  | .nan, _ => .nan
  | _, .nan => .nan
  | .inf s, .inf t => if s = t then .inf s else .nan
  | .inf s, .fin _ => .inf s
  | .fin _, .inf t => .inf t
  | .fin a, .fin b => JSNumber.ofRatio (decide (a + b < 0)) (a + b).natAbs unitsPerOne

/-- The product `x * y` of two numbers: the exact product, rounded to binary64. -/
def JSNumber.mul : JSNumber → JSNumber → JSNumber
  | .nan, _ => .nan
  | _, .nan => .nan
  | .inf s, .inf t => .inf (s != t)
  | .inf s, .fin b => if b = 0 then .nan else .inf (s != decide (b < 0))
  | .fin a, .inf t => if a = 0 then .nan else .inf (decide (a < 0) != t)
  | .fin a, .fin b =>
    JSNumber.ofRatio (decide (a < 0) != decide (b < 0)) (a.natAbs * b.natAbs)
      (unitsPerOne * unitsPerOne)

/-- The number `isNaN` tests. -/
def JSNumber.isNaN : JSNumber → Bool
  | .nan => true
  | _ => false

/-- The comparison `x <= y` of two numbers: false as soon as one is `NaN`. -/
def JSNumber.le : JSNumber → JSNumber → Bool
  | .nan, _ => false
  | _, .nan => false
  | .inf true, _ => true
  | _, .inf false => true
  | .inf false, _ => false
  | _, .inf true => false
  | .fin a, .fin b => decide (a ≤ b)

/-- The comparison `x >= y`. -/
def JSNumber.ge (x y : JSNumber) : Bool := JSNumber.le y x

/-- The comparison `x < y`: false as soon as one is `NaN`. -/
def JSNumber.lt : JSNumber → JSNumber → Bool
  | .nan, _ => false
  | _, .nan => false
  | .inf true, .inf true => false
  | .inf true, _ => true
  | _, .inf true => false
  | .inf false, _ => false
  | _, .inf false => true
  | .fin a, .fin b => decide (a < b)

/-! ## Characters and decimal text -/

/-- The value of a decimal digit character. -/
def digitValue (c : Char) : Option Nat :=
  if 48 ≤ c.toNat ∧ c.toNat ≤ 57 then some (c.toNat - 48) else none

/-- The value of a hexadecimal digit character. -/
def hexDigitValue (c : Char) : Option Nat :=
  if 48 ≤ c.toNat ∧ c.toNat ≤ 57 then some (c.toNat - 48)
  else if 97 ≤ c.toNat ∧ c.toNat ≤ 102 then some (c.toNat - 87)
  else if 65 ≤ c.toNat ∧ c.toNat ≤ 70 then some (c.toNat - 55)
  else none

/-- The characters `parseInt` and `parseFloat` skip at the start of the text
(ECMAScript WhiteSpace and LineTerminator). -/
def isStrWhiteSpace (c : Char) : Bool :=
  let n := c.toNat
  n = 9 || n = 10 || n = 11 || n = 12 || n = 13 || n = 32 || n = 160 || n = 5760 ||
  (8192 ≤ n && n ≤ 8202) || n = 8232 || n = 8233 || n = 8239 || n = 8287 ||
  n = 12288 || n = 65279

/-- The text without its leading white space. -/
def trimStart : JSString → JSString
  | [] => []
  | c :: cs => if isStrWhiteSpace c then trimStart cs else c :: cs

/-- The longest prefix of digits in the given radix, read as a number (starting from
`acc`), with the number of digits read and the rest of the text. -/
def readDigits (digit : Char → Option Nat) (radix : Nat) :
    Nat → Nat → JSString → Nat × Nat × JSString
  | acc, n, [] => (acc, n, [])
  | acc, n, c :: cs =>
    match digit c with
    | some d => readDigits digit radix (acc * radix + d) (n + 1) cs
    | none => (acc, n, c :: cs)

/-- Ten to the power `n`. -/
def pow10 : Nat → Nat
  | 0 => 1
  | n + 1 => 10 * pow10 n

/-- The decimal numeral of a natural number, most significant digit first
(as `Nat.repr` prints it). -/
def natNumeral (n : Nat) : JSString := Nat.toDigits 10 n

/-- The decimal numeral of an integer: a minus sign before the numeral of a negative
number. -/
def intNumeral : Int → JSString
  | Int.ofNat n => natNumeral n
  | Int.negSucc n => '-' :: natNumeral (n + 1)

/-- A leading sign: whether it is a minus, and the text after it. -/
def readSign : JSString → Bool × JSString
  | '-' :: cs => (true, cs)
  | '+' :: cs => (false, cs)
  | cs => (false, cs)

/-! ## parseInt -/

/-- The radix `parseInt` settles on when called without one, and the text after a
`0x` / `0X` prefix. -/
def readRadixPrefix : JSString → Nat × JSString
  | '0' :: 'x' :: cs => (16, cs)
  | '0' :: 'X' :: cs => (16, cs)
  | cs => (10, cs)

/-- The integer `parseInt(text)` reads with no radix argument: leading white space is
skipped, then an optional sign, an optional `0x`, and the longest run of digits; `none`
(`NaN`) when there is no digit. Whatever follows the digits is ignored. -/
def parseIntString (text : JSString) : Option Int :=
  let (negative, afterSign) := readSign (trimStart text)
  let (radix, body) := readRadixPrefix afterSign
  let (value, count, _) :=
    readDigits (if radix = 16 then hexDigitValue else digitValue) radix 0 0 body
  if count = 0 then none
  else some (if negative then -(value : Int) else (value : Int))

/-! ## parseFloat -/

/-- The exponent part `e±digits` at the start of the text, `0` when there is none. -/
def readExponent : JSString → Int
  | c :: cs =>
    if c = 'e' ∨ c = 'E' then
      let (negative, afterSign) := readSign cs
      let (value, count, _) := readDigits digitValue 10 0 0 afterSign
      if count = 0 then 0 else if negative then -(value : Int) else (value : Int)
    else 0
  | [] => 0

/-- The number `± digits * 10^exponent`, where `digits` was written with `count` digits.
A value of `10^309` or more is infinite and one below `10^-330` is zero, so the power of
ten is only computed in between. -/
def JSNumber.ofDecimal (negative : Bool) (digits count : Nat) (exponent : Int) : JSNumber :=
  if digits = 0 then .fin 0
  else if 309 ≤ exponent then .inf negative
  else if exponent + (count : Int) ≤ -330 then .fin 0
  else if 0 ≤ exponent then JSNumber.ofRatio negative (digits * pow10 exponent.toNat) 1
  else JSNumber.ofRatio negative digits (pow10 (-exponent).toNat)

/-- The number `parseFloat(text)` reads: leading white space is skipped, then the longest
prefix that is a decimal literal (`Infinity`, or digits with an optional fraction and an
optional exponent, with an optional sign in front) is rounded to a number; `NaN` when
there is none. Whatever follows that prefix is ignored. -/
def parseFloatString (text : JSString) : JSNumber :=
  let (negative, body) := readSign (trimStart text)
  if "Infinity".toList.isPrefixOf body then .inf negative
  else
    let (intPart, intCount, afterInt) := readDigits digitValue 10 0 0 body
    let (digits, fracCount, afterFrac) :=
      match afterInt with
      | '.' :: cs => readDigits digitValue 10 intPart 0 cs
      | cs => (intPart, 0, cs)
    if intCount + fracCount = 0 then .nan
    else
      JSNumber.ofDecimal negative digits (intCount + fracCount)
        (readExponent afterFrac - (fracCount : Int))

/-- The value of a numeric literal of the source text, such as `99.6`. -/
def numericLiteral (source : String) : JSNumber := parseFloatString source.toList

/-! ## Number to string -/

/-- The number of decimal digits of `w ≥ 1`, counted within `fuel` steps from `count`. -/
def decimalLengthAux : Nat → Nat → Nat → Nat
  | 0, _, count => count
  | fuel + 1, w, count => if w < 10 then count else decimalLengthAux fuel (w / 10) (count + 1)

/-- For `0 < u < 2^1074` units: the number `m` of times the value has to be multiplied by
ten to reach at least one tenth, counted within `fuel` steps. -/
def leadingZerosAux : Nat → Nat → Nat → Nat
  | 0, _, m => m
  | fuel + 1, u, m =>
    if unitsPerOne ≤ u * 10 then m else leadingZerosAux fuel (u * 10) (m + 1)

/-- The decimal exponent `n` of the positive value of `u` units:
`10^(n-1) ≤ u * 2^-1074 < 10^n`. -/
def decimalExponent (u : Nat) : Int :=
  if unitsPerOne ≤ u then (decimalLengthAux 400 (u / unitsPerOne) 1 : Nat)
  else -((leadingZerosAux 400 u 0 : Nat) : Int)

/-- The value of `u` units scaled to `k` digits before the point, as a fraction: numerator
and denominator of `u * 2^-1074 * 10^(k-n)`, `n` being the decimal exponent. -/
def scaledFraction (u k : Nat) : Nat × Nat :=
  let shift : Int := (k : Int) - decimalExponent u
  if 0 ≤ shift then (u * pow10 shift.toNat, unitsPerOne)
  else (u, unitsPerOne * pow10 (-shift).toNat)

/-- The digits `s` put with the decimal exponent of `u`: the pair `(s, n)` standing for
`s * 10^(n-k)` with `10^(k-1) ≤ s < 10^k`, the digits `10^k` being written `10^(k-1)` with
the next exponent. -/
def withExponent (u k s : Nat) : Nat × Int :=
  if s = pow10 k then (pow10 (k - 1), decimalExponent u + 1) else (s, decimalExponent u)

/-- The `k`-digit decimal closest to the value of `u` units (ties to even), as the pair
`(s, n)` standing for `s * 10^(n-k)` with `10^(k-1) ≤ s < 10^k`. -/
def closestDecimal (u k : Nat) : Nat × Int :=
  withExponent u k (roundHalfEven (scaledFraction u k).1 (scaledFraction u k).2)

/-- The `k`-digit decimal next to the value of `u` units on the other side than the
closest one (the closest one itself when the value is a `k`-digit decimal). -/
def neighbourDecimal (u k : Nat) : Nat × Int :=
  let a := (scaledFraction u k).1
  let b := (scaledFraction u k).2
  let closest := roundHalfEven a b
  withExponent u k
    (if a % b = 0 then closest else if closest = a / b then a / b + 1 else a / b)

/-- Whether the decimal `s * 10^(n-k)` rounds back to `u` units. -/
def roundsBackTo (u k s : Nat) (n : Int) : Bool :=
  JSNumber.ofDecimal false s k (n - (k : Int)) = JSNumber.fin (u : Int)

/-- The shortest decimal that rounds back to the value of `u` units, searched from `k`
digits upwards within `fuel` steps: the triple `(k, s, n)` of Number::toString. Among the
`k`-digit decimals that round back, the closest to the value is taken; it is one of the
two next to the value. -/
def shortestDecimalAux : Nat → Nat → Nat → Nat × Nat × Int
  | 0, u, k => (k, (closestDecimal u k).1, (closestDecimal u k).2)
  | fuel + 1, u, k =>
    let (s, n) := closestDecimal u k
    if roundsBackTo u k s n then (k, s, n)
    else
      let (s', n') := neighbourDecimal u k
      if roundsBackTo u k s' n' then (k, s', n') else shortestDecimalAux fuel u (k + 1)

/-- The triple `(k, s, n)` of Number::toString for the positive value of `u` units; a
binary64 value needs at most 17 digits. -/
def shortestDecimal (u : Nat) : Nat × Nat × Int := shortestDecimalAux 16 u 1

/-- The text of the positive number with digits `s` (there are `k` of them) and decimal
exponent `n`, laid out as Number::toString does. -/
def formatDecimal (k s : Nat) (n : Int) : JSString :=
  let ds := natNumeral s
  if (k : Int) ≤ n ∧ n ≤ 21 then ds ++ List.replicate (n.toNat - k) '0'
  else if 0 < n ∧ n ≤ 21 then ds.take n.toNat ++ '.' :: ds.drop n.toNat
  else if -6 < n ∧ n ≤ 0 then '0' :: '.' :: (List.replicate (-n).toNat '0' ++ ds)
  else
    let e := n - 1
    let mantissa := if k = 1 then ds else ds.take 1 ++ '.' :: ds.drop 1
    mantissa ++ 'e' :: (if 0 ≤ e then '+' else '-') :: natNumeral e.natAbs

/-- Number::toString in radix ten. -/
def numberToString : JSNumber → JSString
  | .nan => "NaN".toList
  | .inf false => "Infinity".toList
  | .inf true => "-Infinity".toList
  | .fin k =>
    if k = 0 then "0".toList
    else
      let (digitCount, s, n) := shortestDecimal k.natAbs
      if k < 0 then '-' :: formatDecimal digitCount s n else formatDecimal digitCount s n

/-! ## Conversions and string methods -/

/-- The abstract operation ToString. -/
def toJSString : JSValue → JSString
  | .undefined => "undefined".toList
  | .null => "null".toList
  | .boolean true => "true".toList
  | .boolean false => "false".toList
  | .number x => numberToString x
  | .string s => s

/-- The function `parseInt(value)`: the value is converted to text first. -/
def parseInt (value : JSValue) : Option Int := parseIntString (toJSString value)

/-- The function `parseFloat(value)`: the value is converted to text first. -/
def parseFloat (value : JSValue) : JSNumber := parseFloatString (toJSString value)

/-- The abstract operation ToBoolean: what `!value` negates and `value && ...` tests. -/
def truthy : JSValue → Bool
  | .undefined => false
  | .null => false
  | .boolean b => b
  | .number .nan => false
  | .number (.inf _) => true
  | .number (.fin k) => k != 0
  | .string s => !s.isEmpty

/-- The method `text.includes(pattern)`. -/
def includes : JSString → JSString → Bool
  | [], pattern => pattern.isEmpty
  | c :: cs, pattern => pattern.isPrefixOf (c :: cs) || includes cs pattern

/-- The method `text.split(separator)` for a one-character separator. -/
def split (separator : Char) : JSString → List JSString
  | [] => [[]]
  | c :: cs =>
    if c = separator then [] :: split separator cs
    else
      match split separator cs with
      | part :: parts => (c :: part) :: parts
      | [] => [[c]]

/-- The lower-case mapping of one character, as far as ASCII patterns can see it: the
ASCII capitals, the Kelvin sign (lowered to `k`) and the dotted capital I (lowered to `i`
followed by a combining dot) are the only characters whose lower case holds an ASCII
letter; every other character lowers to non-ASCII text or to itself and is left in
place. -/
def lowerChar (c : Char) : JSString :=
  if 65 ≤ c.toNat ∧ c.toNat ≤ 90 then [Char.ofNat (c.toNat + 32)]
  else if c.toNat = 8490 then ['k']
  else if c.toNat = 304 then ['i', Char.ofNat 775]
  else [c]

/-- The method `text.toLowerCase()`. -/
def toLowerCase (text : JSString) : JSString := text.flatMap lowerChar

/-! ## The records -/

/-- The `vitalSigns` object of a record handed to the risk calculator. A property that is
not there reads as `undefined`. -/
structure VitalSigns where
  bloodPressure : JSValue
  temperature : JSValue
  deriving DecidableEq, Repr

/-- The record the risk calculator receives: `{ id, age, vitalSigns }` (`name` and `gender`
are never read by it). `vitalSigns = none` stands for a `vitalSigns` that is missing or
falsy, which is all `!patient.vitalSigns` asks. -/
structure Patient where
  id : JSValue
  age : JSValue
  vitalSigns : Option VitalSigns
  deriving DecidableEq, Repr

/-- The record as the upstream delivers it, with the fields the aggregation reads. -/
structure RawPatient where
  patient_id : JSValue
  age : JSValue
  blood_pressure : JSValue
  temperature : JSValue
  deriving DecidableEq, Repr

/-! ## src/utils/riskCalculator.js -/

/-- The function `calculateBloodPressureRisk` of riskCalculator.js. -/
def calculateBloodPressureRisk (patient : Patient) : Nat :=
  match patient.vitalSigns with
  | none => 0
  | some vitalSigns =>
    if !truthy vitalSigns.bloodPressure then 0
    else
      match vitalSigns.bloodPressure with
      | .string bp =>
        if includes bp ['/'] then
          match split '/' bp with
          | systolicStr :: diastolicStr :: _ =>
            if systolicStr.isEmpty || diastolicStr.isEmpty then 0
            else
              match parseIntString systolicStr, parseIntString diastolicStr with
              | some systolic, some diastolic =>
                if systolicStr = "INVALID".toList || diastolicStr = "INVALID".toList ||
                    systolicStr = "N/A".toList || diastolicStr = "N/A".toList then 0
                else if systolic ≥ 140 || diastolic ≥ 90 then 4
                else if (systolic ≥ 130 && systolic ≤ 139) ||
                    (diastolic ≥ 80 && diastolic ≤ 89) then 3
                else if systolic ≥ 120 && systolic ≤ 129 && diastolic < 80 then 2
                else if systolic < 120 && diastolic < 80 then 1
                else 1
              | _, _ => 0
          | _ => 0
        else 0
      | _ => 0

/-- Whether the temperature is one of the values the calculator takes for missing:
no `vitalSigns`, `null`, `undefined` or the empty string. -/
def temperatureMissing (patient : Patient) : Bool :=
  match patient.vitalSigns with
  | none => true
  | some vitalSigns =>
    vitalSigns.temperature = .null || vitalSigns.temperature = .undefined ||
      vitalSigns.temperature = .string []

/-- The function `calculateTemperatureRisk` of riskCalculator.js. -/
def calculateTemperatureRisk (patient : Patient) : Nat :=
  match patient.vitalSigns with
  | none => 0
  | some vitalSigns =>
    if vitalSigns.temperature = .null || vitalSigns.temperature = .undefined ||
        vitalSigns.temperature = .string [] then 0
    else
      let temp := parseFloat vitalSigns.temperature
      if temp.isNaN || vitalSigns.temperature = .string "TEMP_ERROR".toList ||
          vitalSigns.temperature = .string "invalid".toList then 0
      else if temp.ge (numericLiteral "101.0") then 2
      else if temp.ge (numericLiteral "99.6") && temp.le (numericLiteral "100.9") then 1
      else if temp.le (numericLiteral "99.5") then 0
      else 0

/-- The test on a textual age in `calculateAgeRisk`: `true` when the text holds `fifty`
or `unknown` in any letter case, or `parseInt` reads no integer from it. Not a string:
`false`. -/
def ageTextInvalid : JSValue → Bool
  | .string age =>
    let lowerAge := toLowerCase age
    includes lowerAge "fifty".toList || includes lowerAge "unknown".toList ||
      (parseInt (.string age)).isNone
  | _ => false

/-- The function `calculateAgeRisk` of riskCalculator.js. -/
def calculateAgeRisk (patient : Patient) : Nat :=
  if patient.age = .null || patient.age = .undefined || patient.age = .string [] then 0
  else if ageTextInvalid patient.age then 0
  else
    match parseInt patient.age with
    | none => 0
    | some age =>
      if age > 65 then 2
      else if age ≥ 40 && age ≤ 65 then 1
      else if age < 40 then 0
      else 0

/-- The function `calculateRiskScore` of riskCalculator.js. -/
def calculateRiskScore (patient : Patient) : Nat :=
  let totalScore := 0
  let bloodPressureScore := calculateBloodPressureRisk patient
  let totalScore := totalScore + bloodPressureScore
  let temperatureScore := calculateTemperatureRisk patient
  let totalScore := totalScore + temperatureScore
  let ageScore := calculateAgeRisk patient
  let totalScore := totalScore + ageScore
  totalScore

/-- The `type` of an alert. -/
inductive AlertType where
  | high_risk
  | fever
  | data_quality
  deriving DecidableEq, Repr

/-- An alert object `{ type, message, patientId }`. -/
structure Alert where
  type : AlertType
  message : JSString
  patientId : JSValue
  deriving DecidableEq, Repr

/-- The high-risk part of `checkForAlerts`. -/
def highRiskAlerts (patient : Patient) : List Alert :=
  let riskScore := calculateRiskScore patient
  if riskScore ≥ 4 then
    [{ type := .high_risk
       message := "High risk patient (score: ".toList ++ toJSString (.number
         (.fin ((riskScore * unitsPerOne : Nat) : Int))) ++ ")".toList
       patientId := patient.id }]
  else []

/-- The fever part of `checkForAlerts`. -/
def feverAlerts (patient : Patient) : List Alert :=
  match patient.vitalSigns with
  | none => []
  | some vitalSigns =>
    if truthy vitalSigns.temperature then
      let temp := parseFloat vitalSigns.temperature
      if !temp.isNaN && temp.ge (numericLiteral "99.6") then
        [{ type := .fever
           message := "Fever detected (".toList ++ numberToString temp ++ "°F)".toList
           patientId := patient.id }]
      else []
    else []

/-- The blood-pressure entry of `dataQualityIssues` in `checkForAlerts`. -/
def bloodPressureIssues (patient : Patient) : List JSString :=
  match patient.vitalSigns with
  | none => ["missing blood pressure".toList]
  | some vitalSigns =>
    if !truthy vitalSigns.bloodPressure then ["missing blood pressure".toList]
    else
      match vitalSigns.bloodPressure with
      | .string bp =>
        if includes bp ['/'] then
          match split '/' bp with
          | systolic :: diastolic :: _ =>
            if systolic.isEmpty || diastolic.isEmpty || (parseIntString systolic).isNone ||
                (parseIntString diastolic).isNone then ["invalid blood pressure".toList]
            else []
          | _ => ["invalid blood pressure".toList]
        else ["malformed blood pressure".toList]
      | _ => ["malformed blood pressure".toList]

/-- The age entry of `dataQualityIssues` in `checkForAlerts`. -/
def ageIssues (patient : Patient) : List JSString :=
  if patient.age = .null || patient.age = .undefined || patient.age = .string [] then
    ["missing age".toList]
  else
    match patient.age with
    | .string age =>
      if (parseInt (.string age)).isNone || includes (toLowerCase age) "unknown".toList ||
          includes (toLowerCase age) "fifty".toList then ["invalid age".toList]
      else []
    | _ => []

/-- The temperature entry of `dataQualityIssues` in `checkForAlerts`. -/
def temperatureIssues (patient : Patient) : List JSString :=
  match patient.vitalSigns with
  | none => ["missing temperature".toList]
  | some vitalSigns =>
    if vitalSigns.temperature = .null || vitalSigns.temperature = .undefined ||
        vitalSigns.temperature = .string [] then ["missing temperature".toList]
    else if (parseFloat vitalSigns.temperature).isNaN ||
        vitalSigns.temperature = .string "TEMP_ERROR".toList ||
        vitalSigns.temperature = .string "invalid".toList then ["invalid temperature".toList]
    else []

/-- The array `dataQualityIssues` of `checkForAlerts` once its three tests have run. -/
def dataQualityIssues (patient : Patient) : List JSString :=
  bloodPressureIssues patient ++ ageIssues patient ++ temperatureIssues patient

/-- The method `issues.join(', ')`. -/
def joinIssues : List JSString → JSString
  | [] => []
  | [issue] => issue
  | issue :: rest => issue ++ ", ".toList ++ joinIssues rest

/-- The data-quality part of `checkForAlerts`. -/
def dataQualityAlerts (patient : Patient) : List Alert :=
  if (dataQualityIssues patient).length > 0 then
    [{ type := .data_quality
       message := "Data quality issues: ".toList ++ joinIssues (dataQualityIssues patient)
       patientId := patient.id }]
  else []

/-- The function `checkForAlerts` of riskCalculator.js: the alerts in the order they are
pushed. -/
def checkForAlerts (patient : Patient) : List Alert :=
  highRiskAlerts patient ++ feverAlerts patient ++ dataQualityAlerts patient

/-! ## src/App.js: the aggregation of `collectAllPatientsData` -/

/-- The `transformedPatient` built for each record. -/
def transformPatient (patient : RawPatient) : Patient :=
  { id := patient.patient_id
    age := patient.age
    vitalSigns := some { bloodPressure := patient.blood_pressure
                         temperature := patient.temperature } }

/-- The three arrays the aggregation fills and returns. -/
structure Assessment where
  high_risk_patients : List JSValue
  fever_patients : List JSValue
  data_quality_issues : List JSValue
  deriving DecidableEq, Repr

/-- The inline fever test of the aggregation:
`patient.temperature && parseFloat(patient.temperature) >= 99.6 &&
 !isNaN(parseFloat(patient.temperature))`. -/
def inlineFeverTest (patient : RawPatient) : Bool :=
  truthy patient.temperature && (parseFloat patient.temperature).ge (numericLiteral "99.6") &&
    !(parseFloat patient.temperature).isNaN

/-- One turn of the `forEach` callback: the three arrays after the record was seen. -/
def assessPatient (acc : Assessment) (patient : RawPatient) : Assessment :=
  let transformedPatient := transformPatient patient
  let riskScore := calculateRiskScore transformedPatient
  let highRiskPatients :=
    if riskScore ≥ 4 then acc.high_risk_patients ++ [patient.patient_id]
    else acc.high_risk_patients
  let feverPatients :=
    if inlineFeverTest patient then acc.fever_patients ++ [patient.patient_id]
    else acc.fever_patients
  let alerts := checkForAlerts transformedPatient
  let hasDataQualityIssue := alerts.any (fun alert => alert.type = .data_quality)
  let dataQualityIssues :=
    if hasDataQualityIssue then acc.data_quality_issues ++ [patient.patient_id]
    else acc.data_quality_issues
  { high_risk_patients := highRiskPatients
    fever_patients := feverPatients
    data_quality_issues := dataQualityIssues }

/-- The aggregation of `collectAllPatientsData`: the `forEach` over the collected records,
starting from three empty arrays. -/
def collectAllPatientsData (allPatientsData : List RawPatient) : Assessment :=
  allPatientsData.foldl assessPatient
    { high_risk_patients := [], fever_patients := [], data_quality_issues := [] }

/-! ## Vocabulary of the statements -/

/-- A decimal digit character. -/
def IsDigit (c : Char) : Prop := (digitValue c).isSome = true

instance (c : Char) : Decidable (IsDigit c) := by unfold IsDigit; infer_instance

/-- The record with the reading `S/D` written with the decimal numerals of `S` and `D`. -/
def readingPatient (id age temperature : JSValue) (S D : Int) : Patient :=
  { id := id, age := age
    vitalSigns := some { bloodPressure := .string (intNumeral S ++ '/' :: intNumeral D)
                         temperature := temperature } }

/-- The blood-pressure value the calculator reads, `undefined` when there is no
`vitalSigns`. -/
def rawBloodPressure (patient : Patient) : JSValue :=
  match patient.vitalSigns with
  | none => .undefined
  | some vitalSigns => vitalSigns.bloodPressure

/-- The text before the first `/`. -/
def firstPart (text : JSString) : JSString := text.takeWhile (fun c => c != '/')

/-- The text after the first `/`. -/
def afterSlash (text : JSString) : JSString := (text.dropWhile (fun c => c != '/')).drop 1

/-- The text between the first `/` and the next one (or the end). -/
def secondPart (text : JSString) : JSString := firstPart (afterSlash text)

/-- An integer numeral: an optional sign followed by one or more decimal digits. -/
def isIntegerNumeral : JSString → Bool
  | '-' :: ds => !ds.isEmpty && ds.all (fun c => (digitValue c).isSome)
  | '+' :: ds => !ds.isEmpty && ds.all (fun c => (digitValue c).isSome)
  | ds => !ds.isEmpty && ds.all (fun c => (digitValue c).isSome)

/-- The malformed blood-pressure values in the words of the specification: absent, not a
string containing `/`, or a first or second part that is empty, is not an integer numeral,
or is the sentinel `INVALID` or `N/A`. -/
def specMalformedBloodPressure : JSValue → Bool
  | .undefined => true
  | .null => true
  | .string bp =>
    if '/' ∈ bp then
      (firstPart bp).isEmpty || (secondPart bp).isEmpty ||
      !isIntegerNumeral (firstPart bp) || !isIntegerNumeral (secondPart bp) ||
      firstPart bp = "INVALID".toList || secondPart bp = "INVALID".toList ||
      firstPart bp = "N/A".toList || secondPart bp = "N/A".toList
    else true
  | _ => true

/-- The blood-pressure values the calculator cannot read: absent, not a string containing
`/`, or a first or second part that is empty, from which `parseInt` reads no integer, or
that is the sentinel `INVALID` or `N/A`. -/
def unreadableBloodPressure : JSValue → Bool
  | .undefined => true
  | .null => true
  | .string bp =>
    if '/' ∈ bp then
      (firstPart bp).isEmpty || (secondPart bp).isEmpty ||
      (parseIntString (firstPart bp)).isNone || (parseIntString (secondPart bp)).isNone ||
      firstPart bp = "INVALID".toList || secondPart bp = "INVALID".toList ||
      firstPart bp = "N/A".toList || secondPart bp = "N/A".toList
    else true
  | _ => true

/-- The record that has the given blood pressure, temperature and age. -/
def patientOf (bloodPressure temperature age : JSValue) : Patient :=
  { id := .string "P001".toList, age := age
    vitalSigns := some { bloodPressure := bloodPressure, temperature := temperature } }

/-- A string value. -/
def str (text : String) : JSValue := .string text.toList

/-- A number value written as a numeric literal. -/
def num (source : String) : JSValue := .number (numericLiteral source)

/-- The temperature value the calculator reads, `undefined` when there is no
`vitalSigns`. -/
def rawTemperature (patient : Patient) : JSValue :=
  match patient.vitalSigns with
  | none => .undefined
  | some vitalSigns => vitalSigns.temperature

/-- The temperature score as a function of the parsed number. -/
def temperatureBand (t : JSNumber) : Nat :=
  if t.ge (numericLiteral "101.0") then 2
  else if t.ge (numericLiteral "99.6") && t.le (numericLiteral "100.9") then 1
  else 0

/-- The age values the calculator takes for missing: `null`, `undefined`, the empty
string. -/
def ageMissing (age : JSValue) : Bool :=
  age = .null || age = .undefined || age = .string []

/-- Text that holds `fifty` or `unknown` in any letter case. -/
def ageSentinelText : JSValue → Bool
  | .string age =>
    includes (toLowerCase age) "fifty".toList || includes (toLowerCase age) "unknown".toList
  | _ => false

/-- The number value of a natural number (exact below `2^53`). -/
def natNumber (n : Nat) : JSValue := .number (.fin ((n * unitsPerOne : Nat) : Int))

/-- The alerts of one type among those `checkForAlerts` returns. -/
def alertsOfType (type : AlertType) (patient : Patient) : List Alert :=
  (checkForAlerts patient).filter (fun alert => alert.type = type)

/-- Whether `checkForAlerts` returns an alert of the type. -/
def hasAlert (type : AlertType) (patient : Patient) : Bool :=
  (checkForAlerts patient).any (fun alert => alert.type = type)

/-- The blood-pressure reasons of the specification: the value is missing, lacks a `/`,
or has an empty or unparseable first or second part. -/
def bloodPressureDefect (patient : Patient) : Bool :=
  match rawBloodPressure patient with
  | .undefined => true
  | .null => true
  | .string bp =>
    if '/' ∈ bp then
      (firstPart bp).isEmpty || (secondPart bp).isEmpty ||
      (parseIntString (firstPart bp)).isNone || (parseIntString (secondPart bp)).isNone
    else true
  | _ => true

/-- The age reasons of the specification: the value is missing, or is text that is
unparseable or holds a sentinel word. -/
def ageDefect (patient : Patient) : Bool :=
  ageMissing patient.age ||
    match patient.age with
    | .string age => (parseInt (.string age)).isNone || ageSentinelText (.string age)
    | _ => false

/-- The temperature reasons of the specification: the value is missing, unparseable, or a
sentinel. -/
def temperatureDefect (patient : Patient) : Bool :=
  temperatureMissing patient || (parseFloat (rawTemperature patient)).isNaN ||
    rawTemperature patient = str "TEMP_ERROR" || rawTemperature patient = str "invalid"

/-- The data-quality alert `checkForAlerts` pushes when there is a reason. -/
def dataQualityAlert (patient : Patient) : Alert :=
  { type := .data_quality
    message := "Data quality issues: ".toList ++ joinIssues (dataQualityIssues patient)
    patientId := patient.id }

/-- The message of a data-quality alert with the given reasons. -/
def issuesMessage (bp age temperature : List JSString) : JSString :=
  "Data quality issues: ".toList ++ joinIssues (bp ++ age ++ temperature)

/-- The values `bloodPressureIssues` can take. -/
def bloodPressureIssueCases : List (List JSString) :=
  [[], ["missing blood pressure".toList], ["invalid blood pressure".toList],
    ["malformed blood pressure".toList]]

/-- The values `ageIssues` can take. -/
def ageIssueCases : List (List JSString) :=
  [[], ["missing age".toList], ["invalid age".toList]]

/-- The values `temperatureIssues` can take. -/
def temperatureIssueCases : List (List JSString) :=
  [[], ["missing temperature".toList], ["invalid temperature".toList]]

/-- The identifiers of the records that pass a test, in the order of the records. -/
def idsWhere (test : RawPatient → Bool) (records : List RawPatient) : List JSValue :=
  (records.filter test).map (fun record => record.patient_id)

/-- Five records as the upstream delivers them: one of composite 8 (150/95, 103.2, 80), one
with a low fever only (119/79, 100.2, 30), one with nothing readable (INVALID, TEMP_ERROR,
unknown), one with normal readings (110/70, 98.6, 30), and one without a blood pressure,
with the temperature 101.5 as a number and the age 70. -/
def sampleRecords : List RawPatient :=
  [RawPatient.mk (str "DEMO001") (num "80") (str "150/95") (str "103.2"),
   RawPatient.mk (str "DEMO002") (num "30") (str "119/79") (str "100.2"),
   RawPatient.mk (str "DEMO003") (str "unknown") (str "INVALID") (str "TEMP_ERROR"),
   RawPatient.mk (str "DEMO004") (num "30") (str "110/70") (str "98.6"),
   RawPatient.mk (str "DEMO005") (num "70") .undefined (num "101.5")]

/-! ## src/services/api.js -/

deriving instance DecidableEq for Except

/-- The parsed body of a successful response: `data` is `none` when the body is `null`
or has no (truthy) `data`; `pagination` is `none` when there is no pagination object and
otherwise holds the truthiness of `pagination.hasNext`. -/
structure ResponseBody (α : Type) where
  data : Option (List α)
  pagination : Option Bool
  deriving DecidableEq, Repr

/-- What the upstream does with one request: a response whose `ok` flag is set and whose
body parses, a response with a non-success status, or no response at all (`fetch`
rejects). -/
inductive Outcome (α : Type) where
  | ok (body : ResponseBody α)
  | status (code : Nat)
  | transportError
  deriving DecidableEq, Repr

/-- Whether the outcome is a successful response. -/
def Outcome.isOk {α : Type} : Outcome α → Bool
  | .ok _ => true
  | _ => false

/-- The errors `fetchPatients` throws: the one built from a non-success status, the one
`fetch` rejected with, and the one made when the loop ends without any. -/
inductive FetchError where
  | http (status : Nat)
  | transport
  | exhausted
  deriving DecidableEq, Repr

/-- What a run does that the outside sees: a request sent, or a call of `wait` with the
given number of milliseconds (before jitter). -/
inductive Event where
  | request (page limit : Nat)
  | wait (ms : ℚ)
  deriving DecidableEq

/-- The upstream: from its state and the page and limit of a request, the outcome and
its next state. -/
abbrev Upstream (σ α : Type) := σ → Nat → Nat → Outcome α × σ

/-- The delay `wait(ms, jitter)` hands to the timer, `random` being the value of
`Math.random()`: `jitter ? ms + Math.random() * 1000 : ms`, computed in binary64. -/
def waitDelay (ms random : JSNumber) (jitter : Bool) : JSNumber :=
  if jitter then ms.add (random.mul (JSNumber.ofNat 1000)) else ms

/-- The largest binary64 number below one, `1 - 2^-53` (`0.9999999999999999`), a value
`Math.random()` can take. -/
def largestRandom : JSNumber := .fin ((9007199254740991 <<< 1021 : Nat) : Int)

/-- The `backoffTime` after a 429: `Math.min(3000 * Math.pow(2, attempt), 12000)`. -/
def rateLimitBackoff (attempt : Nat) : Nat := min (3000 * 2 ^ attempt) 12000

/-- The `backoffTime` after a 503: `2000 * Math.pow(1.5, attempt)`. -/
def unavailableBackoff (attempt : Nat) : ℚ := 2000 * (3 / 2) ^ attempt

/-- The wait in the `catch` block: `1000 * Math.pow(1.5, attempt)`. -/
def genericBackoff (attempt : Nat) : ℚ := 1000 * (3 / 2) ^ attempt

/-- The outcome of a call of `fetchPatients`: what it returned or threw, the state the
upstream is left in, and the events in order. -/
structure FetchRun (σ α : Type) where
  result : Except FetchError (ResponseBody α)
  state : σ
  trace : List Event

/-- The `for` loop of `fetchPatients` from the given `attempt` on, with `lastError` and
the events so far; `fuel` bounds the turns left (the loop is entered with
`fuel = retries - attempt`). -/
def fetchPatientsFrom {σ α : Type} (respond : Upstream σ α) (page limit retries : Nat) :
    Nat → Nat → σ → Option FetchError → List Event → FetchRun σ α
  | 0, _, s, lastError, trace =>
    { result := .error (lastError.getD .exhausted), state := s, trace := trace }
  | fuel + 1, attempt, s, lastError, trace =>
    if attempt < retries then
      let sent := trace ++ [Event.request page limit]
      match respond s page limit with
      | (.ok body, s') => { result := .ok body, state := s', trace := sent }
      | (.status code, s') =>
        if code = 429 then
          fetchPatientsFrom respond page limit retries fuel (attempt + 1) s' lastError
            (sent ++ [Event.wait (rateLimitBackoff attempt)])
        else if code = 503 then
          fetchPatientsFrom respond page limit retries fuel (attempt + 1) s' lastError
            (sent ++ [Event.wait (unavailableBackoff attempt)])
        else if attempt = retries - 1 then
          { result := .error (.http code), state := s', trace := sent }
        else
          fetchPatientsFrom respond page limit retries fuel (attempt + 1) s'
            (some (.http code)) (sent ++ [Event.wait (genericBackoff attempt)])
      | (.transportError, s') =>
        if attempt = retries - 1 then
          { result := .error .transport, state := s', trace := sent }
        else
          fetchPatientsFrom respond page limit retries fuel (attempt + 1) s'
            (some .transport) (sent ++ [Event.wait (genericBackoff attempt)])
    else
      { result := .error (lastError.getD .exhausted), state := s, trace := trace }

/-- The function `fetchPatients(page, limit, retries)` of api.js, run against the
upstream in state `s`. -/
def fetchPatients {σ α : Type} (respond : Upstream σ α) (page limit retries : Nat) (s : σ) :
    FetchRun σ α :=
  fetchPatientsFrom respond page limit retries retries 0 s none []

/-- One call of `fetchPatients` made by `fetchPatientsCarefully`: the page, the limit and
what came back. -/
structure PageLog (α : Type) where
  page : Nat
  limit : Nat
  result : Except FetchError (ResponseBody α)

/-- The state of `fetchPatientsCarefully` between two pages: the array `allPatients`, the
state of the upstream, the events so far and the calls of `fetchPatients` so far. -/
structure CollectRun (σ α : Type) where
  allPatients : List α
  state : σ
  trace : List Event
  pages : List (PageLog α)

/-- The `for` loop of `fetchPatientsCarefully` from the given `page` on; `fuel` bounds
the turns left (the loop is entered with `fuel = maxPages`). -/
def fetchPagesFrom {σ α : Type} (respond : Upstream σ α) (targetCount maxPages : Nat) :
    Nat → Nat → CollectRun σ α → CollectRun σ α
  | 0, _, run => run
  | fuel + 1, page, run =>
    if page ≤ maxPages then
      let waited :=
        if page > 1 then run.trace ++ [Event.wait (4000 + ((page : ℚ) - 1) * 2000)]
        else run.trace
      let limit := min 20 (targetCount - run.allPatients.length)
      let fetched := fetchPatients respond page limit 5 run.state
      let pages := run.pages ++ [{ page := page, limit := limit, result := fetched.result }]
      match fetched.result with
      | .ok response =>
        match response.data with
        | some data =>
          let allPatients := run.allPatients ++ data
          if allPatients.length ≥ targetCount ∨ response.pagination = some false then
            { allPatients := allPatients, state := fetched.state
              trace := waited ++ fetched.trace, pages := pages }
          else
            fetchPagesFrom respond targetCount maxPages fuel (page + 1)
              { allPatients := allPatients, state := fetched.state
                trace := waited ++ fetched.trace, pages := pages }
        | none =>
          fetchPagesFrom respond targetCount maxPages fuel (page + 1)
            { allPatients := run.allPatients, state := fetched.state
              trace := waited ++ fetched.trace, pages := pages }
      | .error _ =>
        fetchPagesFrom respond targetCount maxPages fuel (page + 1)
          { allPatients := run.allPatients, state := fetched.state
            trace := waited ++ fetched.trace, pages := pages }
    else run

/-- The number of pages planned: `Math.ceil(targetCount / patientsPerPage)`. -/
def plannedPages (targetCount : Nat) : Nat := (targetCount + 19) / 20

/-- The run of the loop of `fetchPatientsCarefully(targetCount)` against the upstream in
state `s`. -/
def collectRun {σ α : Type} (respond : Upstream σ α) (targetCount : Nat) (s : σ) :
    CollectRun σ α :=
  fetchPagesFrom respond targetCount (plannedPages targetCount) (plannedPages targetCount) 1
    { allPatients := [], state := s, trace := [], pages := [] }

/-- The function `fetchPatientsCarefully(targetCount)` of api.js: what it returns
(`.ok`) or throws (`.error`). Every error of `fetchPatients` is caught inside the loop and
there is no `throw` outside, so the result is always the slice of `allPatients`. -/
def fetchPatientsCarefully {σ α : Type} (respond : Upstream σ α) (targetCount : Nat) (s : σ) :
    Except FetchError (List α) :=
  .ok ((collectRun respond targetCount s).allPatients.take targetCount)

/-- The upstream of a fixed list of records served by offset pagination without
failures: page `p` with limit `l` holds the records at positions `(p-1)*l .. p*l-1`, and
`hasNext` is `p*l < N`. -/
def offsetUpstream {α : Type} (records : List α) : Upstream Unit α :=
  fun _ page limit =>
    (.ok { data := some ((records.drop ((page - 1) * limit)).take limit)
           pagination := some (decide (page * limit < records.length)) }, ())

/-- The upstream that answers the requests in turn from a script, and with a transport
error once the script is used up; its state is the rest of the script. -/
def scriptedUpstream {α : Type} : Upstream (List (Outcome α)) α :=
  fun script _ _ =>
    match script with
    | [] => (.transportError, [])
    | outcome :: rest => (outcome, rest)

/-- The number of requests among the events. -/
def requestCount (trace : List Event) : Nat :=
  trace.countP (fun event => match event with
    | .request _ _ => true
    | .wait _ => false)

/-- The state of the upstream after `i` requests for the same page and limit. -/
def stateAfter {σ α : Type} (respond : Upstream σ α) (page limit : Nat) (s : σ) : Nat → σ
  | 0 => s
  | i + 1 => (respond (stateAfter respond page limit s i) page limit).2

/-- The outcome of the `i`-th request (from 0) for the same page and limit. -/
def outcomeAt {σ α : Type} (respond : Upstream σ α) (page limit : Nat) (s : σ) (i : Nat) :
    Outcome α :=
  (respond (stateAfter respond page limit s i) page limit).1

/-- The records a call of `fetchPatients` added to `allPatients`. -/
def PageLog.records {α : Type} (log : PageLog α) : List α :=
  match log.result with
  | .ok response => response.data.getD []
  | .error _ => []

/-- A script for a target of 50: the five attempts for page 1 get no response, then page 2
is answered with twenty records and a next page, and nothing answers after that. -/
def failingFirstPageScript : List (Outcome Nat) :=
  [.transportError, .transportError, .transportError, .transportError, .transportError,
    .ok { data := some (List.range 20), pagination := some true }]

/-- The pages and limits of the calls of `fetchPatients` in a run. -/
def requestedPages {σ α : Type} (run : CollectRun σ α) : List (Nat × Nat) :=
  run.pages.map (fun log => (log.page, log.limit))

/-! # Theorems -/

/-! ## Decimal numerals are read back by `parseInt` -/

theorem digitValue_digitChar (d : Nat) (h : d < 10) : digitValue (Nat.digitChar d) = some d := by
  interval_cases d <;> decide

theorem isDigit_ne_of_not_isDigit {c d : Char} (hc : IsDigit c) (hd : ¬ IsDigit d) : c ≠ d := by
  rintro rfl; exact hd hc

theorem readDigits_append (l : JSString) (hl : ∀ c ∈ l, IsDigit c) (acc cnt : Nat) :
    readDigits digitValue 10 acc cnt l =
      (l.foldl (fun a c => a * 10 + (digitValue c).getD 0) acc, cnt + l.length, []) := by
  induction l generalizing acc cnt with
  | nil => simp [readDigits]
  | cons c cs ih =>
    have hc : IsDigit c := hl c (List.mem_cons_self _ _)
    obtain ⟨d, hd⟩ := Option.isSome_iff_exists.mp hc
    have ih2 := ih (fun x hx => hl x (List.mem_cons_of_mem _ hx)) (acc * 10 + d) (cnt + 1)
    simp only [readDigits, hd, ih2, List.foldl_cons, Option.getD_some, List.length_cons]
    simp only [Nat.add_assoc, Nat.add_comm 1]

/-- The digits `Nat.toDigitsCore` puts in front of `ds`: all decimal digits, at least one,
and they spell `n`. -/
theorem toDigitsCore_spec (fuel : Nat) : ∀ (n : Nat) (ds : List Char), n < fuel →
    ∃ l : List Char, Nat.toDigitsCore 10 fuel n ds = l ++ ds ∧ l ≠ [] ∧
      (∀ c ∈ l, IsDigit c) ∧
      ∀ acc, l.foldl (fun a c => a * 10 + (digitValue c).getD 0) acc
        = acc * 10 ^ l.length + n := by
  induction fuel with
  | zero => intro n ds h; omega
  | succ fuel ih =>
    intro n ds h
    have hd : digitValue (Nat.digitChar (n % 10)) = some (n % 10) :=
      digitValue_digitChar _ (Nat.mod_lt _ (by decide))
    simp only [Nat.toDigitsCore]
    by_cases h0 : n / 10 = 0
    · refine ⟨[Nat.digitChar (n % 10)], by simp [h0], by simp, ?_, ?_⟩
      · intro c hc
        simp only [List.mem_singleton] at hc
        subst hc
        simp [IsDigit, hd]
      · intro acc
        simp only [List.foldl_cons, List.foldl_nil, hd, Option.getD_some, List.length_singleton,
          pow_one]
        omega
    · obtain ⟨l, h1, _, h3, h4⟩ := ih (n / 10) (Nat.digitChar (n % 10) :: ds) (by omega)
      refine ⟨l ++ [Nat.digitChar (n % 10)], by simp [h0, h1], by simp, ?_, ?_⟩
      · intro c hc
        rcases List.mem_append.mp hc with hc | hc
        · exact h3 c hc
        · simp only [List.mem_singleton] at hc
          subst hc
          simp [IsDigit, hd]
      · intro acc
        simp only [List.foldl_append, List.foldl_cons, List.foldl_nil, h4, hd, Option.getD_some,
          List.length_append, List.length_singleton, pow_succ]
        have := Nat.div_add_mod n 10
        nlinarith [this]

theorem natNumeral_spec (n : Nat) :
    natNumeral n ≠ [] ∧ (∀ c ∈ natNumeral n, IsDigit c) ∧
      (natNumeral n).foldl (fun a c => a * 10 + (digitValue c).getD 0) 0 = n := by
  obtain ⟨l, h1, h2, h3, h4⟩ := toDigitsCore_spec (n + 1) n [] (by omega)
  have : natNumeral n = l := by simp [natNumeral, Nat.toDigits, h1]
  rw [this]
  exact ⟨h2, h3, by simpa using h4 0⟩

theorem trimStart_of_isDigit (c : Char) (cs : JSString) (h : IsDigit c ∨ c = '-') :
    trimStart (c :: cs) = c :: cs := by
  have : isStrWhiteSpace c = false := by
    rcases h with h | h
    · simp only [IsDigit, digitValue] at h
      split at h
      · rename_i hr
        simp only [isStrWhiteSpace]
        simp only [Bool.or_eq_false_iff, decide_eq_false_iff_not, Bool.and_eq_false_iff]
        omega
      · simp at h
    · subst h; decide
  simp [trimStart, this]

theorem isDigit_bounds {c : Char} (h : IsDigit c) : 48 ≤ c.toNat ∧ c.toNat ≤ 57 := by
  simp only [IsDigit, digitValue] at h
  split at h
  · assumption
  · simp at h

theorem readSign_of_isDigit (c : Char) (cs : JSString) (h : IsDigit c) :
    readSign (c :: cs) = (false, c :: cs) := by
  have hb := isDigit_bounds h
  have h1 : c ≠ '-' := by rintro rfl; revert hb; decide
  have h2 : c ≠ '+' := by rintro rfl; revert hb; decide
  unfold readSign
  split
  · rename_i heq; simp only [List.cons.injEq] at heq; exact absurd heq.1 h1
  · rename_i heq; simp only [List.cons.injEq] at heq; exact absurd heq.1 h2
  · rfl

theorem readRadixPrefix_of_digits (l : JSString) (hl : ∀ c ∈ l, IsDigit c) :
    readRadixPrefix l = (10, l) := by
  unfold readRadixPrefix
  split
  · exact absurd (isDigit_bounds (hl 'x' (by simp))) (by decide)
  · exact absurd (isDigit_bounds (hl 'X' (by simp))) (by decide)
  · rfl

theorem parseIntString_digits (l : JSString) (hne : l ≠ []) (hl : ∀ c ∈ l, IsDigit c) :
    parseIntString l =
      some ((l.foldl (fun a c => a * 10 + (digitValue c).getD 0) 0 : Nat) : Int) := by
  obtain ⟨c, cs, rfl⟩ := List.exists_cons_of_ne_nil hne
  have hc : IsDigit c := hl c (List.mem_cons_self _ _)
  have hr : (if (10 : Nat) = 16 then hexDigitValue else digitValue) = digitValue := by simp
  simp only [parseIntString, trimStart_of_isDigit c cs (Or.inl hc), readSign_of_isDigit c cs hc,
    readRadixPrefix_of_digits _ hl, hr, readDigits_append _ hl]
  simp

theorem parseIntString_neg_digits (l : JSString) (hne : l ≠ []) (hl : ∀ c ∈ l, IsDigit c) :
    parseIntString ('-' :: l) =
      some (-((l.foldl (fun a c => a * 10 + (digitValue c).getD 0) 0 : Nat) : Int)) := by
  have h1 : trimStart ('-' :: l) = '-' :: l := trimStart_of_isDigit _ _ (Or.inr rfl)
  have h2 : readSign ('-' :: l) = (true, l) := rfl
  have hr : (if (10 : Nat) = 16 then hexDigitValue else digitValue) = digitValue := by simp
  simp only [parseIntString, h1, h2, readRadixPrefix_of_digits _ hl, hr, readDigits_append _ hl]
  have : l.length ≠ 0 := by simpa using hne
  simp [this]

/-- The function `parseInt` reads the decimal numeral of an integer back. -/
theorem parseIntString_intNumeral (n : Int) : parseIntString (intNumeral n) = some n := by
  cases n with
  | ofNat n =>
    obtain ⟨h1, h2, h3⟩ := natNumeral_spec n
    simp only [intNumeral]
    rw [parseIntString_digits _ h1 h2, h3]
    rfl
  | negSucc n =>
    obtain ⟨h1, h2, h3⟩ := natNumeral_spec (n + 1)
    simp only [intNumeral]
    rw [parseIntString_neg_digits _ h1 h2, h3]
    rfl

/-- A character of an integer numeral: a digit or the minus sign. -/
theorem intNumeral_chars (n : Int) : ∀ c ∈ intNumeral n, IsDigit c ∨ c = '-' := by
  cases n with
  | ofNat n =>
    intro c hc
    exact Or.inl ((natNumeral_spec n).2.1 c hc)
  | negSucc n =>
    intro c hc
    simp only [intNumeral, List.mem_cons] at hc
    rcases hc with hc | hc
    · exact Or.inr hc
    · exact Or.inl ((natNumeral_spec (n + 1)).2.1 c hc)

theorem intNumeral_ne_nil (n : Int) : intNumeral n ≠ [] := by
  cases n with
  | ofNat n => exact (natNumeral_spec n).1
  | negSucc n => simp [intNumeral]

theorem slash_not_mem_intNumeral (n : Int) : '/' ∉ intNumeral n := by
  intro h
  rcases intNumeral_chars n _ h with h | h
  · have := isDigit_bounds h; revert this; decide
  · revert h; decide

/-! ## Facts about `split` and `includes` -/

theorem includes_slash (a b : JSString) : includes (a ++ '/' :: b) ['/'] = true := by
  induction a with
  | nil => simp [includes, List.isPrefixOf]
  | cons c cs ih => simp [includes, ih]

theorem includes_slash_iff (s : JSString) : includes s ['/'] = true ↔ '/' ∈ s := by
  induction s with
  | nil => simp [includes]
  | cons c cs ih =>
    simp only [includes, List.isPrefixOf, Bool.or_eq_true, ih, List.mem_cons]
    constructor
    · rintro (h | h)
      · left; simp at h; exact h
      · right; exact h
    · rintro (h | h)
      · left; simpa using h
      · right; exact h

theorem split_ne_nil (sep : Char) (s : JSString) : split sep s ≠ [] := by
  induction s with
  | nil => simp [split]
  | cons c cs ih =>
    simp only [split]
    split
    · simp
    · split <;> simp

theorem split_of_not_mem (sep : Char) (s : JSString) (h : sep ∉ s) : split sep s = [s] := by
  induction s with
  | nil => simp [split]
  | cons c cs ih =>
    simp only [List.mem_cons, not_or] at h
    have hc : c ≠ sep := fun e => h.1 e.symm
    simp [split, hc, ih h.2]

theorem split_append (sep : Char) (a b : JSString) (h : sep ∉ a) :
    split sep (a ++ sep :: b) = a :: split sep b := by
  induction a with
  | nil => simp [split]
  | cons c cs ih =>
    simp only [List.mem_cons, not_or] at h
    have hc : c ≠ sep := fun e => h.1 e.symm
    simp [split, hc, ih h.2]

theorem intNumeral_ne_of_not_numeral (n : Int) (s : JSString)
    (h : ∃ c ∈ s, ¬ (IsDigit c ∨ c = '-')) : intNumeral n ≠ s := by
  rintro rfl
  obtain ⟨c, hc, hn⟩ := h
  exact hn (intNumeral_chars n c hc)

/-- C1: for every reading "S/D" written with integers S and D the blood-pressure score is
4 iff S>=140 or D>=90, otherwise 3 iff 130<=S<=139 or 80<=D<=89, otherwise 2 iff
120<=S<=129 and D<80, otherwise 1. -/
theorem bloodPressure_bands (id age temperature : JSValue) (S D : Int) :
    calculateBloodPressureRisk (readingPatient id age temperature S D) =
      if S ≥ 140 ∨ D ≥ 90 then 4
      else if (130 ≤ S ∧ S ≤ 139) ∨ (80 ≤ D ∧ D ≤ 89) then 3
      else if 120 ≤ S ∧ S ≤ 129 ∧ D < 80 then 2
      else 1 := by
  have hS := intNumeral_ne_nil S
  have hD := intNumeral_ne_nil D
  have h1 : intNumeral S ≠ "INVALID".toList :=
    intNumeral_ne_of_not_numeral S _ ⟨'I', by decide, by decide⟩
  have h2 : intNumeral D ≠ "INVALID".toList :=
    intNumeral_ne_of_not_numeral D _ ⟨'I', by decide, by decide⟩
  have h3 : intNumeral S ≠ "N/A".toList :=
    intNumeral_ne_of_not_numeral S _ ⟨'N', by decide, by decide⟩
  have h4 : intNumeral D ≠ "N/A".toList :=
    intNumeral_ne_of_not_numeral D _ ⟨'N', by decide, by decide⟩
  have e1 : (intNumeral S).isEmpty = false := by simpa [List.isEmpty_iff] using hS
  have e2 : (intNumeral D).isEmpty = false := by simpa [List.isEmpty_iff] using hD
  have e3 : (intNumeral S ++ '/' :: intNumeral D).isEmpty = false := by
    cases intNumeral S <;> rfl
  simp only [calculateBloodPressureRisk, readingPatient, truthy, includes_slash,
    split_append '/' _ _ (slash_not_mem_intNumeral S),
    split_of_not_mem '/' _ (slash_not_mem_intNumeral D), parseIntString_intNumeral,
    e1, e2, e3, h1, h2, h3, h4]
  simp only [decide_False, Bool.not_false, Bool.not_true, Bool.false_eq_true, ↓reduceIte,
    Bool.or_self, Bool.or_eq_true, Bool.and_eq_true, decide_eq_true_eq, ge_iff_le]
  split_ifs <;> first | rfl | omega

/-! ## The parts of a reading -/

theorem split_eq_firstPart (s : JSString) :
    split '/' s = firstPart s :: (if '/' ∈ s then split '/' (afterSlash s) else []) := by
  induction s with
  | nil => simp [split, firstPart]
  | cons c cs ih =>
    by_cases hc : c = '/'
    · subst hc
      simp [split, firstPart, afterSlash]
    · have hc2 : ('/' : Char) ≠ c := fun e => hc e.symm
      have e1 : firstPart (c :: cs) = c :: firstPart cs := by simp [firstPart, hc]
      have e2 : afterSlash (c :: cs) = afterSlash cs := by simp [afterSlash, hc]
      simp only [split, hc, ↓reduceIte, ih, e1, e2, List.mem_cons, hc2, false_or]

/-- The two parts the destructuring `[a, b] = bp.split('/')` binds when the text holds a
slash. -/
theorem split_parts (s : JSString) (h : '/' ∈ s) :
    ∃ rest, split '/' s = firstPart s :: secondPart s :: rest := by
  rw [split_eq_firstPart s, if_pos h, split_eq_firstPart (afterSlash s)]
  exact ⟨_, rfl⟩

/-- The blood-pressure score of a text holding a slash, in terms of its two parts. -/
theorem bloodPressure_of_parts (id age temperature : JSValue) (s : JSString) (h : '/' ∈ s) :
    calculateBloodPressureRisk
        { id := id, age := age,
          vitalSigns := some { bloodPressure := .string s, temperature := temperature } } =
      if (firstPart s).isEmpty || (secondPart s).isEmpty then 0
      else
        match parseIntString (firstPart s), parseIntString (secondPart s) with
        | some systolic, some diastolic =>
          if firstPart s = "INVALID".toList || secondPart s = "INVALID".toList ||
              firstPart s = "N/A".toList || secondPart s = "N/A".toList then 0
          else if systolic ≥ 140 || diastolic ≥ 90 then 4
          else if (systolic ≥ 130 && systolic ≤ 139) ||
              (diastolic ≥ 80 && diastolic ≤ 89) then 3
          else if systolic ≥ 120 && systolic ≤ 129 && diastolic < 80 then 2
          else 1
        | _, _ => 0 := by
  obtain ⟨rest, hs⟩ := split_parts s h
  have hne : s.isEmpty = false := by
    cases s with
    | nil => simp at h
    | cons c cs => rfl
  simp only [calculateBloodPressureRisk, truthy, hne, (includes_slash_iff s).mpr h, hs]
  simp only [Bool.not_false, Bool.not_true, Bool.false_eq_true, ↓reduceIte, ite_self]

theorem bloodPressure_zero_iff (p : Patient) :
    calculateBloodPressureRisk p = 0 ↔ unreadableBloodPressure (rawBloodPressure p) = true := by
  obtain ⟨id, age, vs⟩ := p
  cases vs with
  | none => simp [calculateBloodPressureRisk, rawBloodPressure, unreadableBloodPressure]
  | some vs =>
    obtain ⟨bp, temperature⟩ := vs
    cases bp with
    | undefined => simp [calculateBloodPressureRisk, rawBloodPressure, unreadableBloodPressure, truthy]
    | null => simp [calculateBloodPressureRisk, rawBloodPressure, unreadableBloodPressure, truthy]
    | boolean b =>
      simp [calculateBloodPressureRisk, rawBloodPressure, unreadableBloodPressure, truthy]
    | number x =>
      simp [calculateBloodPressureRisk, rawBloodPressure, unreadableBloodPressure, truthy]
    | string s =>
      by_cases h : '/' ∈ s
      · rw [bloodPressure_of_parts id age temperature s h]
        simp only [rawBloodPressure, unreadableBloodPressure, h, ↓reduceIte]
        cases h1 : parseIntString (firstPart s) <;> cases h2 : parseIntString (secondPart s) <;>
          simp only [Option.isNone_none, Option.isNone_some, Bool.or_true, Bool.true_or,
            Bool.or_false, ite_self, Bool.or_eq_true]
        by_cases a1 : firstPart s = [] <;> by_cases a2 : secondPart s = [] <;>
          by_cases a3 : firstPart s = "INVALID".toList <;>
          by_cases a4 : secondPart s = "INVALID".toList <;>
          by_cases a5 : firstPart s = "N/A".toList <;>
          by_cases a6 : secondPart s = "N/A".toList <;>
          simp only [a1, a2, a3, a4, a5, a6, List.isEmpty_iff, decide_True, decide_False,
            Bool.or_true, Bool.true_or, Bool.or_false, Bool.or_self, ↓reduceIte, or_true, true_or,
            or_self, Bool.false_eq_true, false_or, or_false, iff_false, iff_true] <;>
          split_ifs <;> simp
      · have hi : includes s ['/'] = false := by
          rw [← Bool.not_eq_true, includes_slash_iff]; exact h
        simp [calculateBloodPressureRisk, rawBloodPressure, unreadableBloodPressure, h, hi]

/-- C2, as stated, fails: the first part of "12abc/90" is not an integer numeral, yet the
reading scores 4, because `parseInt` reads the leading `12` and ignores the rest. -/
theorem bloodPressure_malformed_counterexample :
    specMalformedBloodPressure (str "12abc/90") = true ∧
      rawBloodPressure (patientOf (str "12abc/90") (str "98.6") (num "30")) = str "12abc/90" ∧
      calculateBloodPressureRisk (patientOf (str "12abc/90") (str "98.6") (num "30")) = 4 := by
  decide

/-- C2, amended: a blood-pressure value that is absent, is not a string containing `/`, or
whose first or second part is empty, yields no integer under `parseInt`, or is the sentinel
`INVALID` or `N/A`, scores 0. -/
theorem bloodPressure_unreadable_zero (p : Patient)
    (h : unreadableBloodPressure (rawBloodPressure p) = true) :
    calculateBloodPressureRisk p = 0 :=
  (bloodPressure_zero_iff p).mpr h

/-- C2, amended, at the readings the claim lists: "150/", "/90", "abc/90", "N/A",
"INVALID" and the number 120 are unreadable and score 0. -/
theorem bloodPressure_unreadable_zero_witness :
    (unreadableBloodPressure (rawBloodPressure (patientOf (str "abc/90") .null .null)) = true ∧
      calculateBloodPressureRisk (patientOf (str "abc/90") .null .null) = 0) ∧
    calculateBloodPressureRisk (patientOf (str "150/") .null .null) = 0 ∧
    calculateBloodPressureRisk (patientOf (str "/90") .null .null) = 0 ∧
    calculateBloodPressureRisk (patientOf (str "N/A") .null .null) = 0 ∧
    calculateBloodPressureRisk (patientOf (str "INVALID") .null .null) = 0 ∧
    calculateBloodPressureRisk (patientOf (num "120") .null .null) = 0 :=
  ⟨⟨by decide, bloodPressure_unreadable_zero _ (by decide)⟩,
    by decide, by decide, by decide, by decide, by decide⟩

/-! ## The order of numbers -/

theorem JSNumber.isNaN_false_of_ge (t a : JSNumber) (h : t.ge a = true) : t.isNaN = false := by
  cases t <;> cases a <;> simp_all [JSNumber.isNaN, JSNumber.ge, JSNumber.le]

theorem JSNumber.eq_nan_of_isNaN (t : JSNumber) (h : t.isNaN = true) : t = .nan := by
  cases t <;> simp_all [JSNumber.isNaN]

/-- From `t <= a` and `a < b`: not `t >= b`. -/
theorem JSNumber.ge_false_of_le_of_lt (t a b : JSNumber) (h1 : t.le a = true)
    (h2 : a.lt b = true) : t.ge b = false := by
  rcases t with _ | ⟨_ | _⟩ | k <;> rcases a with _ | ⟨_ | _⟩ | x <;>
    rcases b with _ | ⟨_ | _⟩ | y <;>
    simp_all [JSNumber.le, JSNumber.lt, JSNumber.ge]
  omega

/-- From `t < a`: `t <= a`. -/
theorem JSNumber.le_of_lt (t a : JSNumber) (h : t.lt a = true) : t.le a = true := by
  rcases t with _ | ⟨_ | _⟩ | k <;> rcases a with _ | ⟨_ | _⟩ | x <;>
    simp_all [JSNumber.le, JSNumber.lt]
  omega

/-- From `a < t`: not `t <= a`. -/
theorem JSNumber.le_false_of_lt (t a : JSNumber) (h : a.lt t = true) : t.le a = false := by
  rcases t with _ | ⟨_ | _⟩ | k <;> rcases a with _ | ⟨_ | _⟩ | x <;>
    simp_all [JSNumber.le, JSNumber.lt]

/-- From `t < b`: not `t >= b`. -/
theorem JSNumber.ge_false_of_lt (t b : JSNumber) (h : t.lt b = true) : t.ge b = false :=
  JSNumber.le_false_of_lt b t h

/-! ## The temperature score -/

theorem parseFloat_missing :
    parseFloat .undefined = .nan ∧ parseFloat .null = .nan ∧ parseFloat (.string []) = .nan ∧
      parseFloat (str "TEMP_ERROR") = .nan ∧ parseFloat (str "invalid") = .nan := by
  decide

/-- The temperature score only depends on the number `parseFloat` reads. -/
theorem temperature_eq_band (p : Patient) :
    calculateTemperatureRisk p = temperatureBand (parseFloat (rawTemperature p)) := by
  have b1 : temperatureBand (parseFloat .undefined) = 0 := by decide
  have b2 : temperatureBand (parseFloat .null) = 0 := by decide
  have b3 : temperatureBand (parseFloat (.string [])) = 0 := by decide
  have b4 : temperatureBand (parseFloat (.string "TEMP_ERROR".toList)) = 0 := by decide
  have b5 : temperatureBand (parseFloat (.string "invalid".toList)) = 0 := by decide
  have b6 : temperatureBand .nan = 0 := by decide
  obtain ⟨id, age, vs⟩ := p
  cases vs with
  | none => simp only [calculateTemperatureRisk, rawTemperature, b1]
  | some vs =>
    obtain ⟨bp, temperature⟩ := vs
    simp only [calculateTemperatureRisk, rawTemperature]
    by_cases a1 : temperature = .null
    · subst a1; rw [b2]; simp
    by_cases a2 : temperature = .undefined
    · subst a2; rw [b1]; simp
    by_cases a3 : temperature = .string []
    · subst a3; rw [b3]; simp
    by_cases a4 : temperature = .string "TEMP_ERROR".toList
    · subst a4; rw [b4]; simp
    by_cases a5 : temperature = .string "invalid".toList
    · subst a5; rw [b5]; simp
    simp only [a1, a2, a3, a4, a5, decide_False, Bool.or_self, Bool.false_eq_true, ↓reduceIte,
      Bool.or_false]
    by_cases a6 : (parseFloat temperature).isNaN = true
    · rw [JSNumber.eq_nan_of_isNaN _ a6, b6]; simp [JSNumber.isNaN]
    · simp only [a6, Bool.false_eq_true, ↓reduceIte, temperatureBand, ite_self]

theorem literal_order :
    (numericLiteral "99.5").lt (numericLiteral "99.6") = true ∧
      (numericLiteral "99.6").lt (numericLiteral "100.9") = true ∧
      (numericLiteral "100.9").lt (numericLiteral "101.0") = true ∧
      (numericLiteral "99.5").lt (numericLiteral "101.0") = true ∧
      (numericLiteral "99.6").lt (numericLiteral "101.0") = true := by
  decide

/-- C3: the temperature score is 2 iff the value parses to a number t >= 101.0, 1 iff it
parses to t with 99.6 <= t <= 100.9, and 0 in every other case: missing or empty, the
sentinels, unparseable, t <= 99.5, and t strictly inside (99.5, 99.6) or (100.9, 101.0). -/
theorem temperature_bands (p : Patient) :
    (calculateTemperatureRisk p = 2 ↔
      (parseFloat (rawTemperature p)).isNaN = false ∧
        (parseFloat (rawTemperature p)).ge (numericLiteral "101.0") = true) ∧
    (calculateTemperatureRisk p = 1 ↔
      (parseFloat (rawTemperature p)).isNaN = false ∧
        (parseFloat (rawTemperature p)).ge (numericLiteral "99.6") = true ∧
        (parseFloat (rawTemperature p)).le (numericLiteral "100.9") = true) ∧
    (calculateTemperatureRisk p = 0 ↔
      ¬ (parseFloat (rawTemperature p)).ge (numericLiteral "101.0") = true ∧
      ¬ ((parseFloat (rawTemperature p)).ge (numericLiteral "99.6") = true ∧
        (parseFloat (rawTemperature p)).le (numericLiteral "100.9") = true)) ∧
    (temperatureMissing p = true → calculateTemperatureRisk p = 0) ∧
    (rawTemperature p = str "TEMP_ERROR" ∨ rawTemperature p = str "invalid" →
      calculateTemperatureRisk p = 0) ∧
    ((parseFloat (rawTemperature p)).isNaN = true → calculateTemperatureRisk p = 0) ∧
    ((parseFloat (rawTemperature p)).le (numericLiteral "99.5") = true →
      calculateTemperatureRisk p = 0) ∧
    ((numericLiteral "99.5").lt (parseFloat (rawTemperature p)) = true ∧
      (parseFloat (rawTemperature p)).lt (numericLiteral "99.6") = true →
      calculateTemperatureRisk p = 0) ∧
    ((numericLiteral "100.9").lt (parseFloat (rawTemperature p)) = true ∧
      (parseFloat (rawTemperature p)).lt (numericLiteral "101.0") = true →
      calculateTemperatureRisk p = 0) ∧
    calculateTemperatureRisk (patientOf .null (str "101.0") .null) = 2 ∧
    calculateTemperatureRisk (patientOf .null (str "100.9") .null) = 1 ∧
    calculateTemperatureRisk (patientOf .null (str "100.95") .null) = 0 ∧
    calculateTemperatureRisk (patientOf .null (str "99.55") .null) = 0 ∧
    calculateTemperatureRisk (patientOf .null (num "99.6") .null) = 1 := by
  obtain ⟨o1, o2, o3, o4, o5⟩ := literal_order
  obtain ⟨m1, m2, m3, m4, m5⟩ := parseFloat_missing
  have hnan : temperatureBand .nan = 0 := by decide
  rw [temperature_eq_band p]
  generalize ht : parseFloat (rawTemperature p) = t
  have key : t.le (numericLiteral "100.9") = true → t.ge (numericLiteral "101.0") = false :=
    fun hu => JSNumber.ge_false_of_le_of_lt t _ _ hu o3
  have n1 := JSNumber.isNaN_false_of_ge t (numericLiteral "101.0")
  have n2 := JSNumber.isNaN_false_of_ge t (numericLiteral "99.6")
  refine ⟨?_, ?_, ?_, ?_, ?_, ?_, ?_, ?_, ?_, by decide, by decide, by decide, by decide,
    by decide⟩
  · cases hA : t.ge (numericLiteral "101.0") <;> cases hB : t.ge (numericLiteral "99.6") <;>
      cases hC : t.le (numericLiteral "100.9") <;> simp_all [temperatureBand]
  · cases hA : t.ge (numericLiteral "101.0") <;> cases hB : t.ge (numericLiteral "99.6") <;>
      cases hC : t.le (numericLiteral "100.9") <;> simp_all [temperatureBand]
  · cases hA : t.ge (numericLiteral "101.0") <;> cases hB : t.ge (numericLiteral "99.6") <;>
      cases hC : t.le (numericLiteral "100.9") <;> simp_all [temperatureBand]
  · intro h
    have : t = .nan := by
      rw [← ht]
      obtain ⟨id, age, vs⟩ := p
      cases vs with
      | none => exact m1
      | some vs =>
        simp only [temperatureMissing, Bool.or_eq_true, decide_eq_true_eq] at h
        rcases h with (h | h) | h <;> simp only [rawTemperature, h] <;> assumption
    rw [this, hnan]
  · intro h
    have : t = .nan := by
      rw [← ht]
      rcases h with h | h <;> rw [h] <;> assumption
    rw [this, hnan]
  · intro h
    rw [JSNumber.eq_nan_of_isNaN t h, hnan]
  · intro h
    simp [temperatureBand, JSNumber.ge_false_of_le_of_lt t _ _ h o1,
      JSNumber.ge_false_of_le_of_lt t _ _ h o4]
  · rintro ⟨_, h⟩
    simp [temperatureBand, JSNumber.ge_false_of_lt t _ h,
      JSNumber.ge_false_of_le_of_lt t _ _ (JSNumber.le_of_lt t _ h) o5]
  · rintro ⟨h1, h2⟩
    simp [temperatureBand, JSNumber.ge_false_of_lt t _ h2, JSNumber.le_false_of_lt t _ h1]

/-! ## The age score -/

theorem mem_of_includes_cons (s : JSString) (c : Char) (pat : JSString)
    (h : includes s (c :: pat) = true) : c ∈ s := by
  induction s with
  | nil => simp [includes] at h
  | cons d ds ih =>
    simp only [includes, List.isPrefixOf, Bool.or_eq_true, Bool.and_eq_true, beq_iff_eq] at h
    rcases h with h | h
    · simp [h.1]
    · exact List.mem_cons_of_mem _ (ih h)

theorem lowerChar_of_numeral (c : Char) (h : IsDigit c ∨ c = '-') : lowerChar c = [c] := by
  have hb : c.toNat < 65 := by
    rcases h with h | h
    · have := isDigit_bounds h; omega
    · subst h; decide
  simp only [lowerChar]
  rw [if_neg (by omega), if_neg (by omega), if_neg (by omega)]

theorem toLowerCase_intNumeral (n : Int) : toLowerCase (intNumeral n) = intNumeral n := by
  have h := intNumeral_chars n
  generalize intNumeral n = l at h
  induction l with
  | nil => rfl
  | cons c cs ih =>
    have hc := lowerChar_of_numeral c (h c (List.mem_cons_self _ _))
    have := ih (fun x hx => h x (List.mem_cons_of_mem _ hx))
    simp only [toLowerCase, List.flatMap_cons, hc] at this ⊢
    rw [this]; rfl

theorem ageSentinelText_intNumeral (n : Int) :
    ageSentinelText (.string (intNumeral n)) = false := by
  simp only [ageSentinelText, toLowerCase_intNumeral, Bool.or_eq_false_iff]
  constructor
  · rw [← Bool.not_eq_true]
    intro h
    rcases intNumeral_chars n _ (mem_of_includes_cons _ _ _ h) with h | h
    · exact absurd (isDigit_bounds h) (by decide)
    · exact absurd h (by decide)
  · rw [← Bool.not_eq_true]
    intro h
    rcases intNumeral_chars n _ (mem_of_includes_cons _ _ _ h) with h | h
    · exact absurd (isDigit_bounds h) (by decide)
    · exact absurd h (by decide)

/-- The age score in terms of the three tests the calculator makes. -/
theorem age_eq (p : Patient) :
    calculateAgeRisk p =
      if ageMissing p.age = true ∨ ageSentinelText p.age = true then 0
      else
        match parseInt p.age with
        | none => 0
        | some age => if age > 65 then 2 else if age ≥ 40 then 1 else 0 := by
  obtain ⟨id, age, vs⟩ := p
  simp only [calculateAgeRisk, ageMissing]
  by_cases m : (decide (age = .null) || decide (age = .undefined) ||
      decide (age = .string [])) = true
  · simp [m]
  · simp only [m, Bool.false_eq_true, ↓reduceIte, false_or]
    cases age with
    | string s =>
      simp only [ageTextInvalid, ageSentinelText]
      by_cases hp : parseInt (.string s) = none
      · simp [hp]
      · obtain ⟨a, ha⟩ := Option.ne_none_iff_exists'.mp hp
        simp only [ha, Option.isNone_some, Bool.or_false]
        split_ifs <;> first | rfl | omega | simp_all
    | undefined => simp at m
    | null => simp at m
    | boolean b =>
      simp only [ageTextInvalid, ageSentinelText, Bool.false_eq_true, ↓reduceIte]
      cases parseInt (.boolean b) with
      | none => rfl
      | some a => simp only []; split_ifs <;> first | rfl | omega | simp_all
    | number x =>
      simp only [ageTextInvalid, ageSentinelText, Bool.false_eq_true, ↓reduceIte]
      cases parseInt (.number x) with
      | none => rfl
      | some a => simp only []; split_ifs <;> first | rfl | omega | simp_all

set_option maxRecDepth 1000000 in
/-- The function `parseInt` reads the whole numbers up to 130, given as numbers, back. -/
theorem parseInt_natNumber_small : ∀ n ∈ List.range 131, parseInt (natNumber n) = some (n : Int) := by
  decide

/-- C4, as stated, fails: the text "70abc" is not an integer numeral, yet it scores 2,
because `parseInt` reads the leading `70`; and the integer number 1e21 is above 65, yet it
scores 0, because its text is `1e+21`, of which `parseInt` reads `1`. -/
theorem age_claimed_counterexample :
    (isIntegerNumeral "70abc".toList = false ∧
      calculateAgeRisk (patientOf (str "120/80") (str "98.6") (str "70abc")) = 2) ∧
    (toJSString (num "1e21") = "1e+21".toList ∧
      calculateAgeRisk (patientOf (str "120/80") (str "98.6") (num "1e21")) = 0) := by
  decide

/-- C4, amended: with `a` the integer `parseInt` reads from the value, the age score is 2
iff the value is not missing, is not text holding `fifty` or `unknown`, and a > 65; it is 1
iff likewise 40 <= a <= 65; it is 0 iff a < 40, or the value is missing or empty, or
`parseInt` reads no integer from it, or it is text holding `fifty` or `unknown` in any
letter case. For the numeral of an integer n, `a` is n, and the score is by the bands of
n. -/
theorem age_bands (p : Patient) :
    (calculateAgeRisk p = 2 ↔
      ageMissing p.age = false ∧ ageSentinelText p.age = false ∧
        ∃ a, parseInt p.age = some a ∧ a > 65) ∧
    (calculateAgeRisk p = 1 ↔
      ageMissing p.age = false ∧ ageSentinelText p.age = false ∧
        ∃ a, parseInt p.age = some a ∧ 40 ≤ a ∧ a ≤ 65) ∧
    (calculateAgeRisk p = 0 ↔
      (∃ a, parseInt p.age = some a ∧ a < 40) ∨ ageMissing p.age = true ∨
        parseInt p.age = none ∨ ageSentinelText p.age = true) ∧
    (∀ n : Int, parseInt (.string (intNumeral n)) = some n ∧
      calculateAgeRisk { p with age := .string (intNumeral n) } =
        if n > 65 then 2 else if 40 ≤ n then 1 else 0) ∧
    (∀ n ∈ List.range 131, parseInt (natNumber n) = some (n : Int)) := by
  refine ⟨?_, ?_, ?_, ?_, ?_⟩
  · rw [age_eq]
    cases hm : ageMissing p.age <;> cases hs : ageSentinelText p.age <;>
      cases hp : parseInt p.age <;> simp <;> split_ifs <;> simp
  · rw [age_eq]
    cases hm : ageMissing p.age <;> cases hs : ageSentinelText p.age <;>
      cases hp : parseInt p.age <;> simp <;> split_ifs <;> simp <;> omega
  · rw [age_eq]
    cases hm : ageMissing p.age <;> cases hs : ageSentinelText p.age <;>
      cases hp : parseInt p.age <;> simp <;> split_ifs <;> simp <;> omega
  · intro n
    have hp : parseInt (.string (intNumeral n)) = some n := parseIntString_intNumeral n
    refine ⟨hp, ?_⟩
    rw [age_eq]
    have hm : ageMissing (.string (intNumeral n)) = false := by
      simp [ageMissing, intNumeral_ne_nil n]
    simp only [hm, ageSentinelText_intNumeral, hp, Bool.false_eq_true, or_self, ↓reduceIte]
  · exact parseInt_natNumber_small

/-! ## The composite score -/

theorem bloodPressure_le (p : Patient) : calculateBloodPressureRisk p ≤ 4 := by
  unfold calculateBloodPressureRisk
  repeat' split
  all_goals omega

theorem temperature_le (p : Patient) : calculateTemperatureRisk p ≤ 2 := by
  rw [temperature_eq_band]
  unfold temperatureBand
  split_ifs <;> omega

theorem age_le (p : Patient) : calculateAgeRisk p ≤ 2 := by
  rw [age_eq]
  repeat' split
  all_goals omega

/-- C5: for every record the composite score is the sum of the three sub-scores, the
blood-pressure score is at most 4, the temperature and age scores at most 2, and the
composite at most 8; a record with nothing in it scores 0. -/
theorem riskScore_sum (p : Patient) :
    calculateRiskScore p =
        calculateBloodPressureRisk p + calculateTemperatureRisk p + calculateAgeRisk p ∧
      calculateBloodPressureRisk p ≤ 4 ∧ calculateTemperatureRisk p ≤ 2 ∧
      calculateAgeRisk p ≤ 2 ∧ calculateRiskScore p ≤ 8 ∧
      calculateRiskScore { id := .undefined, age := .undefined, vitalSigns := none } = 0 ∧
      calculateRiskScore (patientOf (str "garbage") (str "TEMP_ERROR") (str "unknown")) = 0 ∧
      calculateRiskScore (patientOf (str "150/95") (str "103.2") (str "80")) = 8 := by
  have h1 := bloodPressure_le p
  have h2 := temperature_le p
  have h3 := age_le p
  have hs : calculateRiskScore p =
      calculateBloodPressureRisk p + calculateTemperatureRisk p + calculateAgeRisk p := by
    simp [calculateRiskScore]
  refine ⟨hs, h1, h2, h3, by omega, by decide, by decide, by decide⟩

/-! ## The alerts -/

theorem numberToString_small (n : Nat) (h : n ≤ 8) :
    numberToString (.fin ((n * unitsPerOne : Nat) : Int)) = natNumeral n := by
  interval_cases n <;> decide

theorem highRiskAlerts_eq (p : Patient) :
    highRiskAlerts p =
      if calculateRiskScore p ≥ 4 then
        [{ type := .high_risk
           message := "High risk patient (score: ".toList ++ natNumeral (calculateRiskScore p) ++
             ")".toList
           patientId := p.id }]
      else [] := by
  simp only [highRiskAlerts, toJSString, numberToString_small _ (riskScore_sum p).2.2.2.2.1]

theorem feverAlerts_type (p : Patient) : ∀ a ∈ feverAlerts p, a.type = .fever := by
  intro a ha
  unfold feverAlerts at ha
  split at ha
  · simp at ha
  · split_ifs at ha <;> simp_all

theorem dataQualityAlerts_type (p : Patient) :
    ∀ a ∈ dataQualityAlerts p, a.type = .data_quality := by
  intro a ha
  unfold dataQualityAlerts at ha
  split_ifs at ha <;> simp_all

theorem highRiskAlerts_type (p : Patient) : ∀ a ∈ highRiskAlerts p, a.type = .high_risk := by
  intro a ha
  rw [highRiskAlerts_eq] at ha
  split_ifs at ha <;> simp_all

theorem filter_eq_self_of_type (l : List Alert) (t : AlertType) (h : ∀ a ∈ l, a.type = t) :
    l.filter (fun a => a.type = t) = l := by
  rw [List.filter_eq_self]
  intro a ha
  simp [h a ha]

theorem filter_eq_nil_of_type (l : List Alert) (t u : AlertType) (h : ∀ a ∈ l, a.type = u)
    (hne : u ≠ t) : l.filter (fun a => a.type = t) = [] := by
  rw [List.filter_eq_nil_iff]
  intro a ha
  simp [h a ha, hne]

theorem alertsOfType_high_risk (p : Patient) : alertsOfType .high_risk p = highRiskAlerts p := by
  simp only [alertsOfType, checkForAlerts, List.filter_append,
    filter_eq_self_of_type _ _ (highRiskAlerts_type p),
    filter_eq_nil_of_type _ .high_risk _ (feverAlerts_type p) (by decide),
    filter_eq_nil_of_type _ .high_risk _ (dataQualityAlerts_type p) (by decide),
    List.append_nil]

theorem alertsOfType_fever (p : Patient) : alertsOfType .fever p = feverAlerts p := by
  simp only [alertsOfType, checkForAlerts, List.filter_append,
    filter_eq_self_of_type _ _ (feverAlerts_type p),
    filter_eq_nil_of_type _ .fever _ (highRiskAlerts_type p) (by decide),
    filter_eq_nil_of_type _ .fever _ (dataQualityAlerts_type p) (by decide),
    List.append_nil, List.nil_append]

theorem alertsOfType_data_quality (p : Patient) :
    alertsOfType .data_quality p = dataQualityAlerts p := by
  simp only [alertsOfType, checkForAlerts, List.filter_append,
    filter_eq_self_of_type _ _ (dataQualityAlerts_type p),
    filter_eq_nil_of_type _ .data_quality _ (highRiskAlerts_type p) (by decide),
    filter_eq_nil_of_type _ .data_quality _ (feverAlerts_type p) (by decide),
    List.nil_append]

theorem hasAlert_iff (t : AlertType) (p : Patient) :
    hasAlert t p = true ↔ alertsOfType t p ≠ [] := by
  simp only [hasAlert, alertsOfType, List.any_eq_true, decide_eq_true_eq, ne_eq,
    List.filter_eq_nil_iff, not_forall, Classical.not_imp, Decidable.not_not, exists_prop]

set_option maxRecDepth 1000000 in
/-- The alerts at composite 3, at composite 4, and for the record 150/90, 98.5, 70. -/
theorem highRisk_examples :
    (calculateRiskScore (patientOf (str "130/70") (str "98.6") (num "30")) = 3 ∧
      alertsOfType .high_risk (patientOf (str "130/70") (str "98.6") (num "30")) = []) ∧
    (calculateRiskScore (patientOf (str "150/70") (str "98.6") (num "30")) = 4 ∧
      alertsOfType .high_risk (patientOf (str "150/70") (str "98.6") (num "30")) =
        [{ type := .high_risk, message := "High risk patient (score: 4)".toList,
           patientId := .string "P001".toList }]) ∧
    checkForAlerts (patientOf (str "150/90") (str "98.5") (num "70")) =
      [{ type := .high_risk, message := "High risk patient (score: 6)".toList,
         patientId := .string "P001".toList }] := by
  refine ⟨by decide, by decide, by decide⟩

/-- C6: `checkForAlerts` returns a high_risk alert iff the composite score is at least 4;
there is at most one, it carries the record's identifier, and its message holds the
composite score. There is none at composite 3 and one at composite 4. -/
theorem highRisk_alert (p : Patient) :
    (hasAlert .high_risk p = true ↔ calculateRiskScore p ≥ 4) ∧
    (alertsOfType .high_risk p).length ≤ 1 ∧
    (∀ a ∈ alertsOfType .high_risk p, a.patientId = p.id ∧
      a.message = "High risk patient (score: ".toList ++ natNumeral (calculateRiskScore p) ++
        ")".toList ∧
      natNumeral (calculateRiskScore p) <:+: a.message) ∧
    (calculateRiskScore (patientOf (str "130/70") (str "98.6") (num "30")) = 3 ∧
      alertsOfType .high_risk (patientOf (str "130/70") (str "98.6") (num "30")) = []) ∧
    (calculateRiskScore (patientOf (str "150/70") (str "98.6") (num "30")) = 4 ∧
      alertsOfType .high_risk (patientOf (str "150/70") (str "98.6") (num "30")) =
        [{ type := .high_risk, message := "High risk patient (score: 4)".toList,
           patientId := .string "P001".toList }]) ∧
    checkForAlerts (patientOf (str "150/90") (str "98.5") (num "70")) =
      [{ type := .high_risk, message := "High risk patient (score: 6)".toList,
         patientId := .string "P001".toList }] := by
  refine ⟨?_, ?_, ?_, highRisk_examples⟩
  · rw [hasAlert_iff, alertsOfType_high_risk, highRiskAlerts_eq]
    split_ifs with h <;> simp [h]
  · rw [alertsOfType_high_risk, highRiskAlerts_eq]
    split_ifs <;> simp
  · intro a ha
    rw [alertsOfType_high_risk, highRiskAlerts_eq] at ha
    split_ifs at ha with h
    · simp only [List.mem_singleton] at ha
      subst ha
      refine ⟨rfl, rfl, ?_⟩
      exact ⟨"High risk patient (score: ".toList, ")".toList, rfl⟩
    · simp at ha

/-- A falsy temperature never reaches the fever threshold. -/
theorem falsy_below_fever (v : JSValue) (h : truthy v = false) :
    (parseFloat v).ge (numericLiteral "99.6") = false := by
  cases v with
  | undefined => decide
  | null => decide
  | boolean b =>
    cases b with
    | false => decide
    | true => simp [truthy] at h
  | number x =>
    cases x with
    | nan => decide
    | inf s => simp [truthy] at h
    | fin k =>
      have : k = 0 := by simpa [truthy] using h
      subst this
      decide
  | string s =>
    have : s = [] := by simpa [truthy] using h
    subst this
    decide

theorem feverAlerts_ne_nil_iff (p : Patient) :
    feverAlerts p ≠ [] ↔
      temperatureMissing p = false ∧ (parseFloat (rawTemperature p)).isNaN = false ∧
        (parseFloat (rawTemperature p)).ge (numericLiteral "99.6") = true := by
  obtain ⟨m1, m2, m3, _, _⟩ := parseFloat_missing
  have g : JSNumber.nan.ge (numericLiteral "99.6") = false := by decide
  obtain ⟨id, age, vs⟩ := p
  cases vs with
  | none => simp [feverAlerts, temperatureMissing]
  | some vs =>
    obtain ⟨bp, temperature⟩ := vs
    simp only [feverAlerts, temperatureMissing, rawTemperature]
    cases ht : truthy temperature with
    | false =>
      have := falsy_below_fever temperature ht
      simp [this]
    | true =>
      have a1 : temperature ≠ .null := by rintro rfl; simp [truthy] at ht
      have a2 : temperature ≠ .undefined := by rintro rfl; simp [truthy] at ht
      have a3 : temperature ≠ .string [] := by rintro rfl; simp [truthy] at ht
      simp only [a1, a2, a3, decide_False, Bool.or_self, true_and, ↓reduceIte]
      split_ifs with h <;> simp_all

set_option maxRecDepth 1000000 in
/-- The alerts of the record 119/79, 100.2, 30. -/
theorem fever_examples :
    calculateBloodPressureRisk (patientOf (str "119/79") (str "100.2") (num "30")) = 1 ∧
    calculateTemperatureRisk (patientOf (str "119/79") (str "100.2") (num "30")) = 1 ∧
    calculateAgeRisk (patientOf (str "119/79") (str "100.2") (num "30")) = 0 ∧
    calculateRiskScore (patientOf (str "119/79") (str "100.2") (num "30")) = 2 ∧
    checkForAlerts (patientOf (str "119/79") (str "100.2") (num "30")) =
      [{ type := .fever, message := "Fever detected (100.2°F)".toList,
         patientId := .string "P001".toList }] ∧
    hasAlert .fever (patientOf (str "119/79") (str "100.2") (num "30")) = true ∧
    hasAlert .high_risk (patientOf (str "119/79") (str "100.2") (num "30")) = false := by
  refine ⟨by decide, by decide, by decide, by decide, by decide, by decide, by decide⟩

/-- C7: `checkForAlerts` returns a fever alert iff the temperature is present, parses as a
number t, and t >= 99.6. The record 119/79, 100.2, 30 has composite 2, a fever alert and
no high_risk alert; the temperatures "abc" and "TEMP_ERROR" never give a fever alert. -/
theorem fever_alert (p : Patient) :
    (hasAlert .fever p = true ↔
      temperatureMissing p = false ∧ (parseFloat (rawTemperature p)).isNaN = false ∧
        (parseFloat (rawTemperature p)).ge (numericLiteral "99.6") = true) ∧
    (calculateRiskScore (patientOf (str "119/79") (str "100.2") (num "30")) = 2 ∧
      hasAlert .fever (patientOf (str "119/79") (str "100.2") (num "30")) = true ∧
      hasAlert .high_risk (patientOf (str "119/79") (str "100.2") (num "30")) = false) ∧
    (∀ id age bloodPressure : JSValue,
      hasAlert .fever (Patient.mk id age (some (VitalSigns.mk bloodPressure (str "abc")))) = false ∧
      hasAlert .fever
        (Patient.mk id age (some (VitalSigns.mk bloodPressure (str "TEMP_ERROR")))) = false) := by
  have key : ∀ q : Patient, hasAlert .fever q = true ↔
      temperatureMissing q = false ∧ (parseFloat (rawTemperature q)).isNaN = false ∧
        (parseFloat (rawTemperature q)).ge (numericLiteral "99.6") = true := by
    intro q
    rw [hasAlert_iff, alertsOfType_fever, feverAlerts_ne_nil_iff]
  refine ⟨key p, ⟨fever_examples.2.2.2.1, fever_examples.2.2.2.2.2.1,
    fever_examples.2.2.2.2.2.2⟩, ?_⟩
  intro id age bloodPressure
  have n1 : (parseFloat (str "abc")).isNaN = true := by decide
  have n2 : (parseFloat (str "TEMP_ERROR")).isNaN = true := by decide
  constructor
  · rw [← Bool.not_eq_true, key]
    simp [rawTemperature, n1]
  · rw [← Bool.not_eq_true, key]
    simp [rawTemperature, n2]

/-! ## The data-quality alert -/

theorem bloodPressureIssues_spec (p : Patient) :
    bloodPressureIssues p ∈ bloodPressureIssueCases ∧
      (bloodPressureIssues p ≠ [] ↔ bloodPressureDefect p = true) := by
  obtain ⟨id, age, vs⟩ := p
  cases vs with
  | none => simp [bloodPressureIssues, bloodPressureDefect, rawBloodPressure,
      bloodPressureIssueCases]
  | some vs =>
    obtain ⟨bp, temperature⟩ := vs
    cases bp with
    | undefined => simp [bloodPressureIssues, bloodPressureDefect, rawBloodPressure,
        bloodPressureIssueCases, truthy]
    | null => simp [bloodPressureIssues, bloodPressureDefect, rawBloodPressure,
        bloodPressureIssueCases, truthy]
    | boolean b =>
      cases b <;> simp [bloodPressureIssues, bloodPressureDefect, rawBloodPressure,
        bloodPressureIssueCases, truthy]
    | number x =>
      simp only [bloodPressureIssues, bloodPressureDefect, rawBloodPressure,
        bloodPressureIssueCases]
      split_ifs <;> simp
    | string s =>
      by_cases h : '/' ∈ s
      · obtain ⟨rest, hs⟩ := split_parts s h
        have hne : s.isEmpty = false := by
          cases s with
          | nil => simp at h
          | cons c cs => rfl
        simp only [bloodPressureIssues, bloodPressureDefect, rawBloodPressure, truthy, hne,
          (includes_slash_iff s).mpr h, hs, h, bloodPressureIssueCases]
        simp only [Bool.not_false, Bool.not_true, Bool.false_eq_true, ↓reduceIte]
        split_ifs with hc <;> simp_all
      · have hi : includes s ['/'] = false := by
          rw [← Bool.not_eq_true, includes_slash_iff]; exact h
        simp only [bloodPressureIssues, bloodPressureDefect, rawBloodPressure, truthy, hi, h,
          bloodPressureIssueCases]
        split_ifs <;> simp_all

theorem ageIssues_spec (p : Patient) :
    ageIssues p ∈ ageIssueCases ∧ (ageIssues p ≠ [] ↔ ageDefect p = true) := by
  obtain ⟨id, age, vs⟩ := p
  simp only [ageIssues, ageDefect, ageMissing, ageIssueCases]
  by_cases m : (decide (age = .null) || decide (age = .undefined) ||
      decide (age = .string [])) = true
  · simp [m]
  · simp only [m, Bool.false_eq_true, ↓reduceIte, Bool.false_or]
    cases age with
    | string s =>
      simp only [ageSentinelText]
      split_ifs with hc
      · simp at hc ⊢
        tauto
      · simp at hc ⊢
        tauto
    | _ => simp

theorem temperatureIssues_spec (p : Patient) :
    temperatureIssues p ∈ temperatureIssueCases ∧
      (temperatureIssues p ≠ [] ↔ temperatureDefect p = true) := by
  obtain ⟨id, age, vs⟩ := p
  cases vs with
  | none => simp [temperatureIssues, temperatureDefect, temperatureMissing,
      temperatureIssueCases]
  | some vs =>
    obtain ⟨bp, temperature⟩ := vs
    simp only [temperatureIssues, temperatureDefect, temperatureMissing, rawTemperature,
      temperatureIssueCases, str]
    split_ifs with h1 h2
    · simp at h1 ⊢
      tauto
    · simp at h1 h2 ⊢
      tauto
    · simp at h1 h2 ⊢
      tauto

/-- In every message `checkForAlerts` can build, a field is named exactly when there is a
reason for that field. -/
theorem issuesMessage_names :
    ∀ b ∈ bloodPressureIssueCases, ∀ a ∈ ageIssueCases, ∀ t ∈ temperatureIssueCases,
      includes (issuesMessage b a t) "blood pressure".toList = !b.isEmpty ∧
      includes (issuesMessage b a t) "age".toList = !a.isEmpty ∧
      includes (issuesMessage b a t) "temperature".toList = !t.isEmpty := by
  decide

theorem dataQualityIssues_ne_nil_iff (p : Patient) :
    dataQualityIssues p ≠ [] ↔
      bloodPressureDefect p = true ∨ ageDefect p = true ∨ temperatureDefect p = true := by
  rw [← (bloodPressureIssues_spec p).2, ← (ageIssues_spec p).2, ← (temperatureIssues_spec p).2]
  simp only [dataQualityIssues, ne_eq, List.append_eq_nil, not_and_or, or_assoc]

theorem dataQualityAlerts_eq (p : Patient) :
    dataQualityAlerts p =
      if bloodPressureDefect p = true ∨ ageDefect p = true ∨ temperatureDefect p = true then
        [dataQualityAlert p]
      else [] := by
  have h := dataQualityIssues_ne_nil_iff p
  simp only [dataQualityAlerts, dataQualityAlert]
  by_cases hn : dataQualityIssues p = []
  · have : ¬ (bloodPressureDefect p = true ∨ ageDefect p = true ∨ temperatureDefect p = true) :=
      fun hc => (h.mpr hc) hn
    simp [hn, this]
  · have hl : (dataQualityIssues p).length > 0 := List.length_pos.mpr hn
    simp [hl, h.mp hn]

/-- The fields the message of the data-quality alert names. -/
theorem dataQualityAlert_names (p : Patient) :
    (includes (dataQualityAlert p).message "blood pressure".toList = true ↔
      bloodPressureDefect p = true) ∧
    (includes (dataQualityAlert p).message "age".toList = true ↔ ageDefect p = true) ∧
    (includes (dataQualityAlert p).message "temperature".toList = true ↔
      temperatureDefect p = true) := by
  obtain ⟨b1, b2⟩ := bloodPressureIssues_spec p
  obtain ⟨a1, a2⟩ := ageIssues_spec p
  obtain ⟨t1, t2⟩ := temperatureIssues_spec p
  obtain ⟨n1, n2, n3⟩ := issuesMessage_names _ b1 _ a1 _ t1
  have e : (dataQualityAlert p).message =
      issuesMessage (bloodPressureIssues p) (ageIssues p) (temperatureIssues p) := rfl
  rw [e, n1, n2, n3, ← b2, ← a2, ← t2]
  simp [List.isEmpty_iff]

set_option maxRecDepth 1000000 in
/-- The alerts of the record with nothing in it and of the record INVALID, TEMP_ERROR,
unknown. -/
theorem dataQuality_examples :
    (calculateRiskScore { id := .string "P002".toList, age := .undefined, vitalSigns := none }
        = 0 ∧
      checkForAlerts { id := .string "P002".toList, age := .undefined, vitalSigns := none } =
        [{ type := .data_quality
           message := ("Data quality issues: missing blood pressure, missing age, " ++
             "missing temperature").toList
           patientId := .string "P002".toList }]) ∧
    (calculateRiskScore (patientOf .undefined .undefined .undefined) = 0 ∧
      checkForAlerts (patientOf .undefined .undefined .undefined) =
        [{ type := .data_quality
           message := ("Data quality issues: missing blood pressure, missing age, " ++
             "missing temperature").toList
           patientId := .string "P001".toList }]) ∧
    (calculateRiskScore (patientOf (str "INVALID") (str "TEMP_ERROR") (str "unknown")) = 0 ∧
      checkForAlerts (patientOf (str "INVALID") (str "TEMP_ERROR") (str "unknown")) =
        [{ type := .data_quality
           message := ("Data quality issues: malformed blood pressure, invalid age, " ++
             "invalid temperature").toList
           patientId := .string "P001".toList }]) := by
  refine ⟨⟨by decide, by decide⟩, ⟨by decide, by decide⟩, ⟨by decide, by decide⟩⟩

/-- C8: `checkForAlerts` returns exactly one data_quality alert when the blood pressure is
missing, lacks a `/` or has an empty or unparseable part, or the age is missing or is
unparseable or sentinel text, or the temperature is missing, unparseable or a sentinel;
and none otherwise. The one message names every field that has a reason. A record with
all fields missing, and the record INVALID, TEMP_ERROR, unknown, have composite 0 and the
data_quality alert naming all three fields as their only alert. -/
theorem dataQuality_alert (p : Patient) :
    (alertsOfType .data_quality p =
      if bloodPressureDefect p = true ∨ ageDefect p = true ∨ temperatureDefect p = true then
        [dataQualityAlert p]
      else []) ∧
    ((alertsOfType .data_quality p).length =
      if bloodPressureDefect p = true ∨ ageDefect p = true ∨ temperatureDefect p = true then 1
      else 0) ∧
    (dataQualityAlert p).patientId = p.id ∧
    (bloodPressureDefect p = true →
      includes (dataQualityAlert p).message "blood pressure".toList = true) ∧
    (ageDefect p = true → includes (dataQualityAlert p).message "age".toList = true) ∧
    (temperatureDefect p = true →
      includes (dataQualityAlert p).message "temperature".toList = true) ∧
    (calculateRiskScore (patientOf .undefined .undefined .undefined) = 0 ∧
      checkForAlerts (patientOf .undefined .undefined .undefined) =
        [{ type := .data_quality
           message := ("Data quality issues: missing blood pressure, missing age, " ++
             "missing temperature").toList
           patientId := .string "P001".toList }]) ∧
    (calculateRiskScore (patientOf (str "INVALID") (str "TEMP_ERROR") (str "unknown")) = 0 ∧
      checkForAlerts (patientOf (str "INVALID") (str "TEMP_ERROR") (str "unknown")) =
        [{ type := .data_quality
           message := ("Data quality issues: malformed blood pressure, invalid age, " ++
             "invalid temperature").toList
           patientId := .string "P001".toList }]) := by
  obtain ⟨n1, n2, n3⟩ := dataQualityAlert_names p
  have e := dataQualityAlerts_eq p
  refine ⟨?_, ?_, rfl, n1.mpr, n2.mpr, n3.mpr, dataQuality_examples.2.1,
    dataQuality_examples.2.2⟩
  · rw [alertsOfType_data_quality, e]
  · rw [alertsOfType_data_quality, e]
    split_ifs <;> rfl

/-- The blood-pressure reasons are the unreadable values. -/
theorem bloodPressureDefect_eq (p : Patient) :
    bloodPressureDefect p = unreadableBloodPressure (rawBloodPressure p) := by
  have s1 : parseIntString ['I', 'N', 'V', 'A', 'L', 'I', 'D'] = none := by decide
  have s2 : parseIntString ['N', '/', 'A'] = none := by decide
  unfold bloodPressureDefect unreadableBloodPressure
  cases h : rawBloodPressure p with
  | string bp =>
    simp only []
    split_ifs with hs
    · by_cases a1 : firstPart bp = "INVALID".toList
      · simp [a1, s1]
      by_cases a2 : secondPart bp = "INVALID".toList
      · simp [a2, s1]
      by_cases a3 : firstPart bp = "N/A".toList
      · simp [a3, s2]
      by_cases a4 : secondPart bp = "N/A".toList
      · simp [a4, s2]
      simp only [a1, a2, a3, a4, decide_False, Bool.or_false]
    · rfl
  | _ => rfl

/-- C9: scoring and data-quality detection agree: every field the data_quality message
names has sub-score 0, and the blood-pressure score is 0 iff the record carries a
data_quality alert that names the blood pressure. -/
theorem scoring_agrees_with_dataQuality (p : Patient) :
    (∀ a ∈ alertsOfType .data_quality p,
      (includes a.message "blood pressure".toList = true → calculateBloodPressureRisk p = 0) ∧
      (includes a.message "age".toList = true → calculateAgeRisk p = 0) ∧
      (includes a.message "temperature".toList = true → calculateTemperatureRisk p = 0)) ∧
    (calculateBloodPressureRisk p = 0 ↔
      ∃ a ∈ alertsOfType .data_quality p,
        includes a.message "blood pressure".toList = true) ∧
    (calculateBloodPressureRisk p = 0 → hasAlert .data_quality p = true) := by
  obtain ⟨n1, n2, n3⟩ := dataQualityAlert_names p
  have e := dataQualityAlerts_eq p
  have hbp : calculateBloodPressureRisk p = 0 ↔ bloodPressureDefect p = true := by
    rw [bloodPressure_zero_iff, bloodPressureDefect_eq]
  have hmem : ∀ a ∈ alertsOfType .data_quality p, a = dataQualityAlert p := by
    intro a ha
    rw [alertsOfType_data_quality, e] at ha
    split_ifs at ha
    · simpa using ha
    · simp at ha
  have hin : bloodPressureDefect p = true → dataQualityAlert p ∈ alertsOfType .data_quality p := by
    intro h
    rw [alertsOfType_data_quality, e, if_pos (Or.inl h)]
    simp
  refine ⟨?_, ?_, ?_⟩
  · intro a ha
    rw [hmem a ha]
    refine ⟨fun h => hbp.mpr (n1.mp h), ?_, ?_⟩
    · intro h
      have hd := n2.mp h
      rw [age_eq]
      simp only [ageDefect, Bool.or_eq_true] at hd
      rcases hd with hd | hd
      · simp [hd]
      · cases ha2 : p.age with
        | string s =>
          rw [ha2] at hd
          simp only [Bool.or_eq_true] at hd
          rcases hd with hd | hd
          · have : parseInt (.string s) = none := by simpa using hd
            simp [this]
          · simp [hd]
        | _ => rw [ha2] at hd; simp at hd
    · intro h
      have hd := n3.mp h
      obtain ⟨_, _, _, c1, c2, c3, _⟩ := temperature_bands p
      simp only [temperatureDefect, Bool.or_eq_true, decide_eq_true_eq] at hd
      rcases hd with ((hd | hd) | hd) | hd
      · exact c1 hd
      · exact c3 hd
      · exact c2 (Or.inl hd)
      · exact c2 (Or.inr hd)
  · constructor
    · intro h
      exact ⟨dataQualityAlert p, hin (hbp.mp h), n1.mpr (hbp.mp h)⟩
    · rintro ⟨a, ha, h⟩
      rw [hmem a ha] at h
      exact hbp.mpr (n1.mp h)
  · intro h
    rw [hasAlert_iff]
    exact List.ne_nil_of_mem (hin (hbp.mp h))

/-! ## The aggregation -/

/-- The inline fever test of the aggregation agrees with the fever alert of the
classifier. -/
theorem inlineFeverTest_eq (r : RawPatient) :
    inlineFeverTest r = hasAlert .fever (transformPatient r) := by
  have h : hasAlert .fever (transformPatient r) = true ↔ inlineFeverTest r = true := by
    rw [hasAlert_iff, alertsOfType_fever]
    simp only [feverAlerts, transformPatient, inlineFeverTest]
    cases truthy r.temperature <;> cases (parseFloat r.temperature).isNaN <;>
      cases (parseFloat r.temperature).ge (numericLiteral "99.6") <;> simp
  cases h1 : inlineFeverTest r <;> cases h2 : hasAlert .fever (transformPatient r) <;> simp_all

theorem assessPatient_eq (acc : Assessment) (r : RawPatient) :
    assessPatient acc r =
      { high_risk_patients := acc.high_risk_patients ++
          idsWhere (fun r => decide (calculateRiskScore (transformPatient r) ≥ 4)) [r]
        fever_patients := acc.fever_patients ++
          idsWhere (fun r => hasAlert .fever (transformPatient r)) [r]
        data_quality_issues := acc.data_quality_issues ++
          idsWhere (fun r => hasAlert .data_quality (transformPatient r)) [r] } := by
  simp only [assessPatient, inlineFeverTest_eq, idsWhere, List.filter_cons, List.filter_nil,
    hasAlert]
  congr 1
  · split_ifs <;> (simp_all <;> omega)
  · split_ifs <;> simp_all
  · split_ifs <;> simp_all

theorem foldl_assessPatient (xs : List RawPatient) (acc : Assessment) :
    xs.foldl assessPatient acc =
      { high_risk_patients := acc.high_risk_patients ++
          idsWhere (fun r => decide (calculateRiskScore (transformPatient r) ≥ 4)) xs
        fever_patients := acc.fever_patients ++
          idsWhere (fun r => hasAlert .fever (transformPatient r)) xs
        data_quality_issues := acc.data_quality_issues ++
          idsWhere (fun r => hasAlert .data_quality (transformPatient r)) xs } := by
  induction xs generalizing acc with
  | nil => simp [idsWhere]
  | cons x xs ih =>
    rw [List.foldl_cons, ih, assessPatient_eq]
    simp only [idsWhere, List.append_assoc, ← List.map_append, ← List.filter_append,
      List.singleton_append]

set_option maxRecDepth 1000000 in
/-- The aggregation of the five sample records, and the scores behind it. -/
theorem aggregation_examples :
    sampleRecords.map (fun r => calculateRiskScore (transformPatient r)) = [8, 2, 0, 1, 4] ∧
    sampleRecords.map (fun r => calculateBloodPressureRisk (transformPatient r)) =
      [4, 1, 0, 1, 0] ∧
    sampleRecords.map (fun r => calculateTemperatureRisk (transformPatient r)) =
      [2, 1, 0, 0, 2] ∧
    sampleRecords.map (fun r => calculateAgeRisk (transformPatient r)) = [2, 0, 0, 0, 2] ∧
    collectAllPatientsData sampleRecords =
      { high_risk_patients := [str "DEMO001", str "DEMO005"]
        fever_patients := [str "DEMO001", str "DEMO002", str "DEMO005"]
        data_quality_issues := [str "DEMO003", str "DEMO005"] } := by
  refine ⟨by decide, by decide, by decide, by decide, by decide⟩

/-- C10: the three lists of `collectAllPatientsData` are the input identifiers, in input
order, of the records with composite score at least 4, of the records for which
`checkForAlerts` yields a fever alert (the inline temperature test agrees with it), and of
the records for which it yields a data_quality alert, the scores and alerts being those of
the record's own identifier, age, blood pressure and temperature; aggregating `xs ++ ys`
gives the list-wise concatenation of aggregating `xs` and aggregating `ys`. Of the five
sample records, with composites 8, 2, 0, 1 and 4, the first and fifth are listed as high
risk, the first, second and fifth as fever, the third and fifth as data-quality issues. -/
theorem aggregation_filters (xs ys : List RawPatient) :
    (∀ r : RawPatient, transformPatient r =
      Patient.mk r.patient_id r.age (some (VitalSigns.mk r.blood_pressure r.temperature))) ∧
    collectAllPatientsData xs =
      { high_risk_patients :=
          idsWhere (fun r => decide (calculateRiskScore (Patient.mk r.patient_id r.age
            (some (VitalSigns.mk r.blood_pressure r.temperature))) ≥ 4)) xs
        fever_patients :=
          idsWhere (fun r => hasAlert .fever (Patient.mk r.patient_id r.age
            (some (VitalSigns.mk r.blood_pressure r.temperature)))) xs
        data_quality_issues :=
          idsWhere (fun r => hasAlert .data_quality (Patient.mk r.patient_id r.age
            (some (VitalSigns.mk r.blood_pressure r.temperature)))) xs } ∧
    (∀ r : RawPatient, inlineFeverTest r = hasAlert .fever (Patient.mk r.patient_id r.age
      (some (VitalSigns.mk r.blood_pressure r.temperature)))) ∧
    (∀ r : RawPatient, r ∈ xs →
      (calculateRiskScore (Patient.mk r.patient_id r.age
          (some (VitalSigns.mk r.blood_pressure r.temperature))) ≥ 4 →
        r.patient_id ∈ (collectAllPatientsData xs).high_risk_patients) ∧
      (hasAlert .fever (Patient.mk r.patient_id r.age
          (some (VitalSigns.mk r.blood_pressure r.temperature))) = true →
        r.patient_id ∈ (collectAllPatientsData xs).fever_patients) ∧
      (hasAlert .data_quality (Patient.mk r.patient_id r.age
          (some (VitalSigns.mk r.blood_pressure r.temperature))) = true →
        r.patient_id ∈ (collectAllPatientsData xs).data_quality_issues)) ∧
    collectAllPatientsData (xs ++ ys) =
      { high_risk_patients := (collectAllPatientsData xs).high_risk_patients ++
          (collectAllPatientsData ys).high_risk_patients
        fever_patients := (collectAllPatientsData xs).fever_patients ++
          (collectAllPatientsData ys).fever_patients
        data_quality_issues := (collectAllPatientsData xs).data_quality_issues ++
          (collectAllPatientsData ys).data_quality_issues } ∧
    (sampleRecords.map (fun r => calculateRiskScore (transformPatient r)) = [8, 2, 0, 1, 4] ∧
      collectAllPatientsData sampleRecords =
        { high_risk_patients := [str "DEMO001", str "DEMO005"]
          fever_patients := [str "DEMO001", str "DEMO002", str "DEMO005"]
          data_quality_issues := [str "DEMO003", str "DEMO005"] }) := by
  have key : ∀ zs : List RawPatient, collectAllPatientsData zs =
      { high_risk_patients :=
          idsWhere (fun r => decide (calculateRiskScore (transformPatient r) ≥ 4)) zs
        fever_patients := idsWhere (fun r => hasAlert .fever (transformPatient r)) zs
        data_quality_issues :=
          idsWhere (fun r => hasAlert .data_quality (transformPatient r)) zs } := by
    intro zs
    simp only [collectAllPatientsData, foldl_assessPatient, List.nil_append]
  refine ⟨fun _ => rfl, key xs, inlineFeverTest_eq, ?_, ?_,
    aggregation_examples.1, aggregation_examples.2.2.2.2⟩
  · intro r hr
    rw [key xs]
    simp only [idsWhere, List.mem_map, List.mem_filter, decide_eq_true_eq]
    exact ⟨fun h => ⟨r, ⟨hr, h⟩, rfl⟩, fun h => ⟨r, ⟨hr, h⟩, rfl⟩, fun h => ⟨r, ⟨hr, h⟩, rfl⟩⟩
  · rw [key (xs ++ ys), key xs, key ys]
    simp only [idsWhere, List.filter_append, List.map_append]

/-! ## The fever alert against the temperature score -/

/-- For numbers: not `t <= a` is `a < t`. -/
theorem JSNumber.lt_of_le_false (t a : JSNumber) (ht : t.isNaN = false) (ha : a.isNaN = false)
    (h : t.le a = false) : a.lt t = true := by
  rcases t with _ | ⟨_ | _⟩ | k <;> rcases a with _ | ⟨_ | _⟩ | x <;>
    simp_all [JSNumber.le, JSNumber.lt, JSNumber.isNaN]

theorem JSNumber.isNaN_false_of_lt_left (t a : JSNumber) (h : a.lt t = true) :
    t.isNaN = false := by
  rcases t with _ | ⟨_ | _⟩ | k <;> rcases a with _ | ⟨_ | _⟩ | x <;>
    simp_all [JSNumber.lt, JSNumber.isNaN]

theorem parseFloat_of_missing (p : Patient) (h : temperatureMissing p = true) :
    parseFloat (rawTemperature p) = .nan := by
  obtain ⟨m1, m2, m3, _, _⟩ := parseFloat_missing
  obtain ⟨id, age, vs⟩ := p
  cases vs with
  | none => exact m1
  | some vs =>
    simp only [temperatureMissing, Bool.or_eq_true, decide_eq_true_eq] at h
    rcases h with (h | h) | h <;> simp only [rawTemperature, h] <;> assumption

set_option maxRecDepth 1000000 in
/-- The temperature 100.95 lies in the gap: a fever alert with temperature score 0. -/
theorem fever_gap_example :
    hasAlert .fever (patientOf (str "120/80") (str "100.95") (num "30")) = true ∧
      calculateTemperatureRisk (patientOf (str "120/80") (str "100.95") (num "30")) = 0 ∧
      (numericLiteral "100.9").lt (parseFloat (str "100.95")) = true ∧
      (parseFloat (str "100.95")).lt (numericLiteral "101.0") = true := by
  refine ⟨by decide, by decide, by decide, by decide⟩

/-- C18: a temperature score of 1 or 2 implies a fever alert, and a fever alert together
with temperature score 0 occurs exactly when the parsed temperature t satisfies
100.9 < t < 101.0, as for "100.95". -/
theorem fever_vs_temperature (p : Patient) :
    (calculateTemperatureRisk p ≥ 1 → hasAlert .fever p = true) ∧
    ((hasAlert .fever p = true ∧ calculateTemperatureRisk p = 0) ↔
      ((numericLiteral "100.9").lt (parseFloat (rawTemperature p)) = true ∧
        (parseFloat (rawTemperature p)).lt (numericLiteral "101.0") = true)) ∧
    (hasAlert .fever (patientOf (str "120/80") (str "100.95") (num "30")) = true ∧
      calculateTemperatureRisk (patientOf (str "120/80") (str "100.95") (num "30")) = 0) := by
  obtain ⟨o1, o2, o3, o4, o5⟩ := literal_order
  have hfever : hasAlert .fever p = true ↔
      temperatureMissing p = false ∧ (parseFloat (rawTemperature p)).isNaN = false ∧
        (parseFloat (rawTemperature p)).ge (numericLiteral "99.6") = true := by
    rw [hasAlert_iff, alertsOfType_fever, feverAlerts_ne_nil_iff]
  have hmiss : (parseFloat (rawTemperature p)).isNaN = false → temperatureMissing p = false := by
    intro h
    cases hm : temperatureMissing p with
    | false => rfl
    | true => rw [parseFloat_of_missing p hm] at h; simp [JSNumber.isNaN] at h
  have l1 : (numericLiteral "100.9").isNaN = false := by decide
  rw [temperature_eq_band] 
  generalize parseFloat (rawTemperature p) = t at *
  have g1 : (numericLiteral "100.9").lt t = true → t.ge (numericLiteral "99.6") = true := by
    intro h
    cases hc : t.ge (numericLiteral "99.6") with
    | true => rfl
    | false =>
      exfalso
      have := JSNumber.lt_of_le_false _ _ (by decide) (JSNumber.isNaN_false_of_lt_left _ _ h) hc
      have := JSNumber.ge_false_of_le_of_lt t _ _ (JSNumber.le_of_lt _ _ this) o2
      rw [JSNumber.ge, JSNumber.le_of_lt _ _ h] at this
      exact absurd this (by simp)
  refine ⟨?_, ?_, fever_gap_example.1, fever_gap_example.2.1⟩
  · intro h
    rw [hfever]
    simp only [temperatureBand] at h
    split_ifs at h with a b
    · have n := JSNumber.isNaN_false_of_ge _ _ a
      refine ⟨hmiss n, n, ?_⟩
      cases hc : t.ge (numericLiteral "99.6") with
      | true => rfl
      | false =>
        exfalso
        have := JSNumber.lt_of_le_false _ _ (by decide) n hc
        have := JSNumber.ge_false_of_le_of_lt t _ _ (JSNumber.le_of_lt _ _ this) o5
        rw [a] at this
        exact absurd this (by simp)
    · simp only [Bool.and_eq_true] at b
      have n := JSNumber.isNaN_false_of_ge _ _ b.1
      exact ⟨hmiss n, n, b.1⟩
    · omega
  · rw [hfever]
    constructor
    · rintro ⟨⟨_, n, hge⟩, hz⟩
      simp only [temperatureBand] at hz
      split_ifs at hz with a b
      simp only [Bool.and_eq_true, hge, true_and, Bool.not_eq_true] at b
      refine ⟨JSNumber.lt_of_le_false _ _ n l1 b, ?_⟩
      exact JSNumber.lt_of_le_false _ _ (by decide) n (by simpa [JSNumber.ge] using a)
    · rintro ⟨h1, h2⟩
      have n := JSNumber.isNaN_false_of_lt_left _ _ h1
      refine ⟨⟨hmiss n, n, g1 h1⟩, ?_⟩
      simp [temperatureBand, JSNumber.ge_false_of_lt t _ h2, JSNumber.le_false_of_lt t _ h1]

/-! ## fetchPatients -/

theorem requestCount_append (t u : List Event) :
    requestCount (t ++ u) = requestCount t + requestCount u := by
  simp [requestCount, List.countP_append]

theorem requestCount_request (page limit : Nat) : requestCount [Event.request page limit] = 1 :=
  rfl

theorem requestCount_wait (ms : ℚ) : requestCount [Event.wait ms] = 0 := rfl

theorem stateAfter_succ {σ α : Type} (respond : Upstream σ α) (page limit : Nat) (s : σ)
    (i : Nat) :
    stateAfter respond page limit s (i + 1) =
      stateAfter respond page limit (respond s page limit).2 i := by
  induction i with
  | zero => rfl
  | succ i ih =>
    show (respond (stateAfter respond page limit s (i + 1)) page limit).2 = _
    rw [ih]
    rfl

theorem outcomeAt_zero {σ α : Type} (respond : Upstream σ α) (page limit : Nat) (s : σ) :
    outcomeAt respond page limit s 0 = (respond s page limit).1 := rfl

theorem outcomeAt_succ {σ α : Type} (respond : Upstream σ α) (page limit : Nat) (s : σ)
    (i : Nat) :
    outcomeAt respond page limit s (i + 1) =
      outcomeAt respond page limit (respond s page limit).2 i := by
  simp only [outcomeAt, stateAfter_succ]

/-- The loop of `fetchPatients`, entered with as many turns left as attempts left: it sends
at most that many requests; it returns the body of the first successful response among
them, having sent no request after it; if none is successful it throws, having sent them
all; and a status other than 429 and 503 on the last attempt is the error thrown. -/
theorem fetchPatientsFrom_spec {σ α : Type} (respond : Upstream σ α) (page limit retries : Nat)
    (fuel : Nat) : ∀ (attempt : Nat) (s : σ) (lastError : Option FetchError)
    (trace : List Event), attempt + fuel = retries →
    requestCount (fetchPatientsFrom respond page limit retries fuel attempt s lastError
      trace).trace ≤ requestCount trace + fuel ∧
    (∀ i body, i < fuel →
      (∀ j < i, (outcomeAt respond page limit s j).isOk = false) →
      outcomeAt respond page limit s i = .ok body →
      (fetchPatientsFrom respond page limit retries fuel attempt s lastError trace).result
          = .ok body ∧
        requestCount (fetchPatientsFrom respond page limit retries fuel attempt s lastError
          trace).trace = requestCount trace + i + 1) ∧
    ((∀ j < fuel, (outcomeAt respond page limit s j).isOk = false) →
      (∃ e, (fetchPatientsFrom respond page limit retries fuel attempt s lastError
          trace).result = .error e) ∧
        requestCount (fetchPatientsFrom respond page limit retries fuel attempt s lastError
          trace).trace = requestCount trace + fuel) ∧
    (∀ k code, fuel = k + 1 →
      (∀ j < k, (outcomeAt respond page limit s j).isOk = false) →
      outcomeAt respond page limit s k = .status code → code ≠ 429 → code ≠ 503 →
      (fetchPatientsFrom respond page limit retries fuel attempt s lastError trace).result
        = .error (.http code)) := by
  induction fuel with
  | zero =>
    intro attempt s lastError trace _
    refine ⟨by simp [fetchPatientsFrom], ?_, ?_, ?_⟩
    · intro i body hi; omega
    · intro _; exact ⟨⟨_, rfl⟩, rfl⟩
    · intro k code hk; omega
  | succ fuel ih =>
    intro attempt s lastError trace hfuel
    have hlt : attempt < retries := by omega
    have hlast : attempt = retries - 1 ↔ fuel = 0 := by omega
    -- what the recursive call gives, whatever the wait and the error kept
    have rec : ∀ (le : Option FetchError) (w : ℚ),
        (respond s page limit).1.isOk = false →
        let run := fetchPatientsFrom respond page limit retries fuel (attempt + 1)
          (respond s page limit).2 le (trace ++ [Event.request page limit] ++ [Event.wait w])
        requestCount run.trace ≤ requestCount trace + (fuel + 1) ∧
        (∀ i body, i < fuel + 1 →
          (∀ j < i, (outcomeAt respond page limit s j).isOk = false) →
          outcomeAt respond page limit s i = .ok body →
          run.result = .ok body ∧ requestCount run.trace = requestCount trace + i + 1) ∧
        ((∀ j < fuel + 1, (outcomeAt respond page limit s j).isOk = false) →
          (∃ e, run.result = .error e) ∧
            requestCount run.trace = requestCount trace + (fuel + 1)) ∧
        (∀ k code, fuel = k + 1 →
          (∀ j < k + 1, (outcomeAt respond page limit s j).isOk = false) →
          outcomeAt respond page limit s (k + 1) = .status code → code ≠ 429 → code ≠ 503 →
          run.result = .error (.http code)) := by
      intro le w hnot
      obtain ⟨a, b, c, d⟩ := ih (attempt + 1) (respond s page limit).2 le
        (trace ++ [Event.request page limit] ++ [Event.wait w]) (by omega)
      have hc : requestCount (trace ++ [Event.request page limit] ++ [Event.wait w])
          = requestCount trace + 1 := by
        rw [requestCount_append, requestCount_append, requestCount_request, requestCount_wait]
      rw [hc] at a b c
      refine ⟨by omega, ?_, ?_, ?_⟩
      · intro i body hi hbefore hok
        cases i with
        | zero => rw [outcomeAt_zero] at hok; rw [hok] at hnot; simp [Outcome.isOk] at hnot
        | succ i =>
          obtain ⟨r1, r2⟩ := b i body (by omega)
            (fun j hj => by
              have := hbefore (j + 1) (by omega)
              rwa [outcomeAt_succ] at this)
            (by rwa [outcomeAt_succ] at hok)
          exact ⟨r1, by omega⟩
      · intro hall
        obtain ⟨r1, r2⟩ := c (fun j hj => by
          have := hall (j + 1) (by omega)
          rwa [outcomeAt_succ] at this)
        exact ⟨r1, by omega⟩
      · intro k code hk hbefore hout h1 h2
        exact d k code hk
          (fun j hj => by
            have := hbefore (j + 1) (by omega)
            rwa [outcomeAt_succ] at this)
          (by rwa [outcomeAt_succ] at hout) h1 h2
    -- what a throw on the last attempt gives
    have thrown : ∀ (e : FetchError), fuel = 0 →
        (respond s page limit).1.isOk = false →
        let run : FetchRun σ α :=
          FetchRun.mk (.error e) (respond s page limit).2 (trace ++ [Event.request page limit])
        requestCount run.trace ≤ requestCount trace + (fuel + 1) ∧
        (∀ i body, i < fuel + 1 →
          (∀ j < i, (outcomeAt respond page limit s j).isOk = false) →
          outcomeAt respond page limit s i = .ok body →
          run.result = .ok body ∧ requestCount run.trace = requestCount trace + i + 1) ∧
        ((∀ j < fuel + 1, (outcomeAt respond page limit s j).isOk = false) →
          (∃ e, run.result = .error e) ∧
            requestCount run.trace = requestCount trace + (fuel + 1)) := by
      intro e h0 hnot
      subst h0
      have hc : requestCount (trace ++ [Event.request page limit]) = requestCount trace + 1 := by
        rw [requestCount_append, requestCount_request]
      refine ⟨by simp only [hc]; omega, ?_, ?_⟩
      · intro i body hi hbefore hok
        have : i = 0 := by omega
        subst this
        rw [outcomeAt_zero] at hok; rw [hok] at hnot; simp [Outcome.isOk] at hnot
      · intro _
        exact ⟨⟨e, rfl⟩, by simp only [hc]⟩
    rcases hr : respond s page limit with ⟨outcome, s'⟩
    rw [hr] at rec thrown
    simp only at rec thrown
    cases outcome with
    | ok body =>
      have hrun : fetchPatientsFrom respond page limit retries (fuel + 1) attempt s lastError trace
          = FetchRun.mk (.ok body) s' (trace ++ [Event.request page limit]) := by
        simp only [fetchPatientsFrom, hlt, ↓reduceIte, hr]
      have hc : requestCount (trace ++ [Event.request page limit]) = requestCount trace + 1 := by
        rw [requestCount_append, requestCount_request]
      have h0 : outcomeAt respond page limit s 0 = .ok body := by rw [outcomeAt_zero, hr]
      rw [hrun]
      refine ⟨by simp only [hc]; omega, ?_, ?_, ?_⟩
      · intro i body' hi hbefore hok
        cases i with
        | zero =>
          rw [h0] at hok
          injection hok with hb
          subst hb
          exact ⟨rfl, by simp only [hc]⟩
        | succ i =>
          have := hbefore 0 (by omega)
          rw [h0] at this
          simp [Outcome.isOk] at this
      · intro hall
        have := hall 0 (by omega)
        rw [h0] at this
        simp [Outcome.isOk] at this
      · intro k code hk hbefore hout h1 h2
        cases k with
        | zero => rw [h0] at hout; simp at hout
        | succ k =>
          have := hbefore 0 (by omega)
          rw [h0] at this
          simp [Outcome.isOk] at this
    | status code =>
      have h0 : outcomeAt respond page limit s 0 = .status code := by rw [outcomeAt_zero, hr]
      by_cases c1 : code = 429
      · have hrun : fetchPatientsFrom respond page limit retries (fuel + 1) attempt s lastError
            trace = fetchPatientsFrom respond page limit retries fuel (attempt + 1) s' lastError
              (trace ++ [Event.request page limit] ++
                [Event.wait (rateLimitBackoff attempt)]) := by
          simp only [fetchPatientsFrom, hlt, ↓reduceIte, hr, c1]
        rw [hrun]
        obtain ⟨a, b, c, d⟩ := rec lastError (rateLimitBackoff attempt) rfl
        refine ⟨a, b, c, ?_⟩
        intro k code' hk hbefore hout h1 h2
        cases k with
        | zero => rw [h0] at hout; injection hout with hcode; omega
        | succ k => exact d k code' (by omega) hbefore hout h1 h2
      by_cases c2 : code = 503
      · have hrun : fetchPatientsFrom respond page limit retries (fuel + 1) attempt s lastError
            trace = fetchPatientsFrom respond page limit retries fuel (attempt + 1) s' lastError
              (trace ++ [Event.request page limit] ++
                [Event.wait (unavailableBackoff attempt)]) := by
          rw [fetchPatientsFrom, if_pos hlt]
          simp only [hr]
          rw [if_neg c1, if_pos c2]
        rw [hrun]
        obtain ⟨a, b, c, d⟩ := rec lastError (unavailableBackoff attempt) rfl
        refine ⟨a, b, c, ?_⟩
        intro k code' hk hbefore hout h1 h2
        cases k with
        | zero => rw [h0] at hout; injection hout with hcode; omega
        | succ k => exact d k code' (by omega) hbefore hout h1 h2
      by_cases c3 : fuel = 0
      · have hrun : fetchPatientsFrom respond page limit retries (fuel + 1) attempt s lastError
            trace = FetchRun.mk (.error (.http code)) s'
              (trace ++ [Event.request page limit]) := by
          rw [fetchPatientsFrom, if_pos hlt]
          simp only [hr]
          rw [if_neg c1, if_neg c2, if_pos (hlast.mpr c3)]
        rw [hrun]
        obtain ⟨a, b, c⟩ := thrown (.http code) c3 rfl
        refine ⟨a, b, c, ?_⟩
        intro k code' hk hbefore hout h1 h2
        have : k = 0 := by omega
        subst this
        rw [h0] at hout
        injection hout with hcode
        subst hcode
        rfl
      · have hrun : fetchPatientsFrom respond page limit retries (fuel + 1) attempt s lastError
            trace = fetchPatientsFrom respond page limit retries fuel (attempt + 1) s'
              (some (.http code)) (trace ++ [Event.request page limit] ++
                [Event.wait (genericBackoff attempt)]) := by
          simp only [fetchPatientsFrom, hlt, ↓reduceIte, hr, c1, c2,
            show ¬ attempt = retries - 1 from fun h => c3 (hlast.mp h)]
        rw [hrun]
        obtain ⟨a, b, c, d⟩ := rec (some (.http code)) (genericBackoff attempt) rfl
        refine ⟨a, b, c, ?_⟩
        intro k code' hk hbefore hout h1 h2
        cases k with
        | zero => omega
        | succ k => exact d k code' (by omega) hbefore hout h1 h2
    | transportError =>
      have h0 : outcomeAt respond page limit s 0 = .transportError := by rw [outcomeAt_zero, hr]
      by_cases c3 : fuel = 0
      · have hrun : fetchPatientsFrom respond page limit retries (fuel + 1) attempt s lastError
            trace = FetchRun.mk (.error .transport) s'
              (trace ++ [Event.request page limit]) := by
          rw [fetchPatientsFrom, if_pos hlt]
          simp only [hr]
          rw [if_pos (hlast.mpr c3)]
        rw [hrun]
        obtain ⟨a, b, c⟩ := thrown .transport c3 rfl
        refine ⟨a, b, c, ?_⟩
        intro k code' hk hbefore hout h1 h2
        have : k = 0 := by omega
        subst this
        rw [h0] at hout
        simp at hout
      · have hrun : fetchPatientsFrom respond page limit retries (fuel + 1) attempt s lastError
            trace = fetchPatientsFrom respond page limit retries fuel (attempt + 1) s'
              (some .transport) (trace ++ [Event.request page limit] ++
                [Event.wait (genericBackoff attempt)]) := by
          simp only [fetchPatientsFrom, hlt, ↓reduceIte, hr,
            show ¬ attempt = retries - 1 from fun h => c3 (hlast.mp h)]
        rw [hrun]
        obtain ⟨a, b, c, d⟩ := rec (some .transport) (genericBackoff attempt) rfl
        refine ⟨a, b, c, ?_⟩
        intro k code' hk hbefore hout h1 h2
        cases k with
        | zero => omega
        | succ k => exact d k code' (by omega) hbefore hout h1 h2

/-- C16: `fetchPatients` sends at most `retries` requests; it returns the parsed body of
the first successful response among them, sending nothing after it; and if none of the
`retries` attempts is successful it throws after exactly `retries` requests. With no
attempt allowed it throws at once. -/
theorem fetchPatients_attempts {σ α : Type} (respond : Upstream σ α) (page limit retries : Nat)
    (s : σ) :
    requestCount (fetchPatients respond page limit retries s).trace ≤ retries ∧
    (∀ i body, i < retries →
      (∀ j < i, (outcomeAt respond page limit s j).isOk = false) →
      outcomeAt respond page limit s i = .ok body →
      (fetchPatients respond page limit retries s).result = .ok body ∧
        requestCount (fetchPatients respond page limit retries s).trace = i + 1) ∧
    ((∀ j < retries, (outcomeAt respond page limit s j).isOk = false) →
      (∃ e, (fetchPatients respond page limit retries s).result = .error e) ∧
        requestCount (fetchPatients respond page limit retries s).trace = retries) ∧
    ((fetchPatients respond page limit 0 s).result = .error .exhausted ∧
      (fetchPatients respond page limit 0 s).trace = []) := by
  obtain ⟨a, b, c, _⟩ :=
    fetchPatientsFrom_spec respond page limit retries retries 0 s none [] (by omega)
  have h0 : requestCount [] = 0 := rfl
  simp only [h0, Nat.zero_add] at a b c
  exact ⟨a, b, c, rfl, rfl⟩

/-- C15, as stated, fails: with three attempts allowed, a first answer of status 500 is
followed, after a wait of 1000 ms, by a second request, whose body is returned. -/
theorem fetchPatients_status_counterexample :
    (fetchPatients (α := Nat) scriptedUpstream 1 20 3
        [.status 500, .ok { data := some [7], pagination := none }]).result =
      .ok { data := some [7], pagination := none } ∧
    (fetchPatients (α := Nat) scriptedUpstream 1 20 3
        [.status 500, .ok { data := some [7], pagination := none }]).trace =
      [.request 1 20, .wait 1000, .request 1 20] := by
  constructor
  · decide
  · simp [fetchPatients, fetchPatientsFrom, scriptedUpstream, genericBackoff]

/-- C15, amended: an unsuccessful answer (a status other than 429 and 503 included) on an
attempt that is not the last is followed by another request; on the last attempt
`fetchPatients` throws without a further request, and the error carries the status when
the last answer is a status other than 429 and 503. -/
theorem fetchPatients_unsuccessful_attempt {σ α : Type} (respond : Upstream σ α)
    (page limit retries : Nat) (s : σ) (a : Nat)
    (hbefore : ∀ j < a, (outcomeAt respond page limit s j).isOk = false)
    (hnot : (outcomeAt respond page limit s a).isOk = false) :
    (a + 1 < retries → a + 2 ≤ requestCount (fetchPatients respond page limit retries s).trace) ∧
    (a + 1 = retries →
      requestCount (fetchPatients respond page limit retries s).trace = retries ∧
      (∃ e, (fetchPatients respond page limit retries s).result = .error e) ∧
      ∀ code, outcomeAt respond page limit s a = .status code → code ≠ 429 → code ≠ 503 →
        (fetchPatients respond page limit retries s).result = .error (.http code)) := by
  obtain ⟨_, b, c, d⟩ :=
    fetchPatientsFrom_spec respond page limit retries retries 0 s none [] (by omega)
  have h0 : requestCount [] = 0 := rfl
  simp only [h0, Nat.zero_add] at b c
  have upto : ∀ j < a + 1, (outcomeAt respond page limit s j).isOk = false := by
    intro j hj
    rcases Nat.lt_succ_iff_lt_or_eq.mp hj with h | h
    · exact hbefore j h
    · rw [h]; exact hnot
  constructor
  · intro hlt
    by_cases hex : ∃ i, i < retries ∧ (outcomeAt respond page limit s i).isOk = true
    · obtain ⟨i, ⟨hi, hok⟩, hmin⟩ : ∃ i, (i < retries ∧
          (outcomeAt respond page limit s i).isOk = true) ∧
          ∀ m < i, ¬ (m < retries ∧ (outcomeAt respond page limit s m).isOk = true) :=
        ⟨Nat.find hex, Nat.find_spec hex, fun m hm => Nat.find_min hex hm⟩
      have hia : a + 1 ≤ i := by
        by_contra hc
        have := upto i (by omega)
        rw [this] at hok
        exact absurd hok (by simp)
      obtain ⟨body, hb⟩ : ∃ body, outcomeAt respond page limit s i = .ok body := by
        cases ho : outcomeAt respond page limit s i with
        | ok body => exact ⟨body, rfl⟩
        | status c => rw [ho] at hok; simp [Outcome.isOk] at hok
        | transportError => rw [ho] at hok; simp [Outcome.isOk] at hok
      have hnone : ∀ j < i, (outcomeAt respond page limit s j).isOk = false := by
        intro j hj
        have := hmin j hj
        simp only [not_and, Bool.not_eq_true] at this
        exact this (by omega)
      have := (b i body hi hnone hb).2
      unfold fetchPatients
      omega
    · have hall : ∀ j < retries, (outcomeAt respond page limit s j).isOk = false := by
        intro j hj
        by_contra hc
        exact hex ⟨j, hj, by simpa using hc⟩
      have := (c hall).2
      unfold fetchPatients
      omega
  · intro hlast
    have hall : ∀ j < retries, (outcomeAt respond page limit s j).isOk = false := by
      intro j hj
      exact upto j (by omega)
    obtain ⟨he, hn⟩ := c hall
    refine ⟨hn, he, ?_⟩
    intro code hout h1 h2
    exact d a code hlast.symm hbefore hout h1 h2

/-- C15, amended, on a run of three attempts answered 429, no response, 500: the third
attempt is the last, three requests are sent and the error carries the status 500. -/
theorem fetchPatients_unsuccessful_attempt_witness :
    ((∀ j < 2, (outcomeAt (α := Nat) scriptedUpstream 1 20
        [.status 429, .transportError, .status 500] j).isOk = false) ∧
      (outcomeAt (α := Nat) scriptedUpstream 1 20
        [.status 429, .transportError, .status 500] 2).isOk = false) ∧
    ((2 + 1 < 3 → 2 + 2 ≤ requestCount (fetchPatients (α := Nat) scriptedUpstream 1 20 3
        [.status 429, .transportError, .status 500]).trace) ∧
    (2 + 1 = 3 →
      requestCount (fetchPatients (α := Nat) scriptedUpstream 1 20 3
        [.status 429, .transportError, .status 500]).trace = 3 ∧
      (∃ e, (fetchPatients (α := Nat) scriptedUpstream 1 20 3
        [.status 429, .transportError, .status 500]).result = .error e) ∧
      ∀ code, outcomeAt (α := Nat) scriptedUpstream 1 20
          [.status 429, .transportError, .status 500] 2 = .status code →
        code ≠ 429 → code ≠ 503 →
        (fetchPatients (α := Nat) scriptedUpstream 1 20 3
          [.status 429, .transportError, .status 500]).result = .error (.http code))) :=
  ⟨⟨by decide, by decide⟩,
    fetchPatients_unsuccessful_attempt scriptedUpstream 1 20 3 _ 2 (by decide) (by decide)⟩

/-! ## The backoff after a rate-limited response -/

theorem rateLimitBackoff_of_two_le (a : Nat) (h : 2 ≤ a) : rateLimitBackoff a = 12000 := by
  have : 2 ^ 2 ≤ 2 ^ a := Nat.pow_le_pow_right (by decide) h
  simp only [rateLimitBackoff]
  omega

theorem rateLimitBackoff_mono (a b : Nat) (h : a ≤ b) :
    rateLimitBackoff a ≤ rateLimitBackoff b := by
  have : 2 ^ a ≤ 2 ^ b := Nat.pow_le_pow_right (by decide) h
  simp only [rateLimitBackoff]
  omega

/-! ## The delay with jitter, in binary64 -/

/-- `bitLengthAux` stays within `m` on numbers below `2^m`. -/
theorem bitLengthAux_le (fuel : Nat) : ∀ n m : Nat, n < 2 ^ m → bitLengthAux fuel n ≤ m := by
  induction fuel with
  | zero => intro n m _; simp [bitLengthAux]
  | succ fuel ih =>
    intro n m h
    rw [bitLengthAux]
    split_ifs with h0 h1
    · exact Nat.zero_le _
    · have hm : m ≠ 0 := by
        rintro rfl
        simp at h
        exact h0 h
      obtain ⟨m, rfl⟩ := Nat.exists_eq_succ_of_ne_zero hm
      have : n / 2 < 2 ^ m := by
        rw [Nat.div_lt_iff_lt_mul (by norm_num)]
        rw [pow_succ] at h
        exact h
      exact Nat.succ_le_succ (ih _ _ this)
    · have h32 : (4294967296 : Nat) = 2 ^ 32 := by norm_num
      have hm : 32 < m := by
        by_contra hc
        have : 2 ^ m ≤ 2 ^ 32 := Nat.pow_le_pow_right (by norm_num) (by omega)
        omega
      obtain ⟨d, rfl⟩ : ∃ d, m = d + 32 := ⟨m - 32, by omega⟩
      have : n >>> 32 < 2 ^ d := by
        rw [Nat.shiftRight_eq_div_pow, Nat.div_lt_iff_lt_mul (by positivity)]
        rw [pow_add] at h
        exact h
      have := ih _ _ this
      omega

/-- Rounding `a / b` to the nearest integer stays between integer bounds of `a / b`. -/
theorem roundHalfEven_bounds (a b lo hi : Nat) (hb : 0 < b) (hlo : lo * b ≤ a)
    (hhi : a ≤ hi * b) : lo ≤ roundHalfEven a b ∧ roundHalfEven a b ≤ hi := by
  have hq : lo ≤ a / b := (Nat.le_div_iff_mul_le hb).2 hlo
  have hq2 : a / b ≤ hi := Nat.div_le_of_le_mul (by rw [Nat.mul_comm]; exact hhi)
  have hstep : a % b ≠ 0 → a / b + 1 ≤ hi := by
    intro hr
    by_contra hc
    have e : a / b = hi := by omega
    have := Nat.div_add_mod a b
    rw [e, Nat.mul_comm] at this
    omega
  simp only [roundHalfEven]
  split_ifs with h1 h2 h3
  · exact ⟨hq, hq2⟩
  · exact ⟨by omega, hstep (by omega)⟩
  · exact ⟨hq, hq2⟩
  · exact ⟨by omega, hstep (by omega)⟩

/-- A ratio between the integers `lo` and `hi < 2^53` rounds to a finite binary64 value
between them. -/
theorem roundToDouble_bounds (p q lo hi : Nat) (hq : 0 < q) (hlo : lo * q ≤ p)
    (hhi : p ≤ hi * q) (h53 : hi < 2 ^ 53) :
    ∃ r, roundToDouble p q = some r ∧ lo * unitsPerOne ≤ r ∧ r ≤ hi * unitsPerOne := by
  have hU : unitsPerOne = 2 ^ 1074 := Nat.one_shiftLeft 1074
  have hO : overflowUnits = 2 ^ 2098 := Nat.one_shiftLeft 2098
  simp only [roundToDouble]
  generalize unitsPerOne = U at hU ⊢
  generalize overflowUnits = O at hO ⊢
  have hover : hi * U < O := by
    rw [hU, hO]
    calc hi * 2 ^ 1074 < 2 ^ 53 * 2 ^ 1074 := Nat.mul_lt_mul_of_pos_right h53 (by positivity)
      _ = 2 ^ 1127 := by rw [← pow_add]
      _ < 2 ^ 2098 := Nat.pow_lt_pow_right (by norm_num) (by norm_num)
  have hloP : lo * U * q ≤ p * U := by
    calc lo * U * q = lo * q * U := by ring
      _ ≤ p * U := Nat.mul_le_mul_right _ hlo
  have hhiP : p * U ≤ hi * U * q := by
    calc p * U ≤ hi * q * U := Nat.mul_le_mul_right _ hhi
      _ = hi * U * q := by ring
  by_cases hf : p * U / q < 1 <<< 53
  · obtain ⟨b1, b2⟩ := roundHalfEven_bounds (p * U) q _ _ hq hloP hhiP
    refine ⟨roundHalfEven (p * U) q, ?_, b1, b2⟩
    rw [if_pos hf, if_pos (lt_of_le_of_lt b2 hover)]
  · have hfle : p * U / q ≤ hi * U :=
      Nat.div_le_of_le_mul (by rw [Nat.mul_comm q (hi * U)]; exact hhiP)
    have hflt : p * U / q < 2 ^ 1127 := by
      calc p * U / q ≤ hi * U := hfle
        _ < 2 ^ 53 * 2 ^ 1074 := by
          rw [hU]; exact Nat.mul_lt_mul_of_pos_right h53 (by positivity)
        _ = 2 ^ 1127 := by rw [← pow_add]
    have hbl : bitLength (p * U / q) ≤ 1127 := bitLengthAux_le _ _ 1127 hflt
    rw [if_neg hf]
    obtain ⟨j, hj⟩ : ∃ j, bitLength (p * U / q) - 53 = j := ⟨_, rfl⟩
    rw [hj]
    have hj2 : j ≤ 1074 := by omega
    obtain ⟨d, hd⟩ : ∃ d, 1074 = d + j := ⟨1074 - j, by omega⟩
    have hUj : U = 2 ^ d * 2 ^ j := by rw [hU, hd, pow_add]
    have hlo2 : lo * 2 ^ d * (q <<< j) ≤ p * U := by
      calc lo * 2 ^ d * (q <<< j) = lo * U * q := by
            rw [Nat.shiftLeft_eq, hUj]; ring
        _ ≤ p * U := hloP
    have hhi2 : p * U ≤ hi * 2 ^ d * (q <<< j) := by
      calc p * U ≤ hi * U * q := hhiP
        _ = hi * 2 ^ d * (q <<< j) := by rw [Nat.shiftLeft_eq, hUj]; ring
    have hqj : 0 < q <<< j := by rw [Nat.shiftLeft_eq]; positivity
    obtain ⟨b1, b2⟩ := roundHalfEven_bounds (p * U) (q <<< j) _ _ hqj hlo2 hhi2
    have c1 : lo * U ≤ roundHalfEven (p * U) (q <<< j) <<< j := by
      calc lo * U = lo * 2 ^ d * 2 ^ j := by rw [hUj, Nat.mul_assoc]
        _ ≤ roundHalfEven (p * U) (q <<< j) * 2 ^ j := Nat.mul_le_mul_right _ b1
        _ = roundHalfEven (p * U) (q <<< j) <<< j := (Nat.shiftLeft_eq _ _).symm
    have c2 : roundHalfEven (p * U) (q <<< j) <<< j ≤ hi * U := by
      calc roundHalfEven (p * U) (q <<< j) <<< j
          = roundHalfEven (p * U) (q <<< j) * 2 ^ j := Nat.shiftLeft_eq _ _
        _ ≤ hi * 2 ^ d * 2 ^ j := Nat.mul_le_mul_right _ b2
        _ = hi * U := by rw [hUj, Nat.mul_assoc]
    refine ⟨roundHalfEven (p * U) (q <<< j) <<< j, ?_, c1, c2⟩
    rw [if_pos (lt_of_le_of_lt c2 hover)]

/-- The product of two non-negative finite numbers. -/
theorem JSNumber.mul_fin (a b : Nat) :
    JSNumber.mul (.fin (a : Int)) (.fin (b : Int)) =
      JSNumber.ofRatio false (a * b) (unitsPerOne * unitsPerOne) := by
  have ha : ¬ ((a : Int) < 0) := by omega
  have hb : ¬ ((b : Int) < 0) := by omega
  simp only [JSNumber.mul, ha, hb, decide_False, bne_self_eq_false, Int.natAbs_ofNat]

/-- The sum of two non-negative finite numbers. -/
theorem JSNumber.add_fin (a b : Nat) :
    JSNumber.add (.fin (a : Int)) (.fin (b : Int)) =
      JSNumber.ofRatio false (a + b) unitsPerOne := by
  have hab : ¬ ((a : Int) + (b : Int) < 0) := by omega
  have hn : ((a : Int) + (b : Int)).natAbs = a + b := by omega
  simp only [JSNumber.add, hab, decide_False, hn]

/-- The numbers the backoff computation uses, in units of `2^-1074`. -/
theorem JSNumber.ofNat_backoff :
    JSNumber.ofNat 0 = .fin ((0 : Nat) : Int) ∧
    JSNumber.ofNat 1 = .fin ((unitsPerOne : Nat) : Int) ∧
    JSNumber.ofNat 1000 = .fin ((1000 * unitsPerOne : Nat) : Int) ∧
    JSNumber.ofNat 3000 = .fin ((3000 * unitsPerOne : Nat) : Int) ∧
    JSNumber.ofNat 6000 = .fin ((6000 * unitsPerOne : Nat) : Int) ∧
    JSNumber.ofNat 12000 = .fin ((12000 * unitsPerOne : Nat) : Int) ∧
    JSNumber.ofNat 13000 = .fin ((13000 * unitsPerOne : Nat) : Int) := by
  decide

/-- With a random number of at most one, the delay `ms + random * 1000` is a finite number
between `ms` and `ms + 1000`. -/
theorem waitDelay_bounds (ms k : Nat) (hms : ms + 1000 < 2 ^ 53) (hk : k ≤ unitsPerOne) :
    ∃ r : Nat,
      waitDelay (.fin ((ms * unitsPerOne : Nat) : Int)) (.fin (k : Int)) true = .fin (r : Int) ∧
      ms * unitsPerOne ≤ r ∧ r ≤ (ms + 1000) * unitsPerOne := by
  have hU : 0 < unitsPerOne := by
    rw [show unitsPerOne = 2 ^ 1074 from Nat.one_shiftLeft 1074]
    positivity
  obtain ⟨j, hj, -, hj2⟩ := roundToDouble_bounds (k * (1000 * unitsPerOne))
    (unitsPerOne * unitsPerOne) 0 1000 (Nat.mul_pos hU hU) (by simp)
    (by
      calc k * (1000 * unitsPerOne) = 1000 * (k * unitsPerOne) := by ring
        _ ≤ 1000 * (unitsPerOne * unitsPerOne) :=
          Nat.mul_le_mul_left _ (Nat.mul_le_mul_right _ hk))
    (by norm_num)
  obtain ⟨r, hr, hr1, hr2⟩ := roundToDouble_bounds (ms * unitsPerOne + j) unitsPerOne ms
    (ms + 1000) hU (Nat.le_add_right _ _)
    (by rw [Nat.add_mul]; exact Nat.add_le_add_left hj2 _) hms
  refine ⟨r, ?_, hr1, hr2⟩
  rw [waitDelay, if_pos rfl, JSNumber.ofNat_backoff.2.2.1, JSNumber.mul_fin]
  simp only [JSNumber.ofRatio, hj, Bool.false_eq_true, if_false]
  rw [JSNumber.add_fin]
  simp only [JSNumber.ofRatio, hr, Bool.false_eq_true, if_false]

/-- The base wait takes one of three values. -/
theorem rateLimitBackoff_cases (a : Nat) :
    rateLimitBackoff a = 3000 ∨ rateLimitBackoff a = 6000 ∨ rateLimitBackoff a = 12000 := by
  rcases a with _ | _ | a
  · exact Or.inl rfl
  · exact Or.inr (Or.inl rfl)
  · exact Or.inr (Or.inr (rateLimitBackoff_of_two_le _ (by omega)))

/-- With a random number `0 ≤ random < 1`, the delay after a base wait of `ms` with
`ms + 1000 ≤ 13000` lies between `ms` and `13000`. -/
theorem waitDelay_le (ms : Nat) (hms : ms + 1000 ≤ 13000)
    (hv : JSNumber.ofNat ms = .fin ((ms * unitsPerOne : Nat) : Int)) (random : JSNumber)
    (h0 : (JSNumber.ofNat 0).le random = true) (h1 : random.lt (JSNumber.ofNat 1) = true) :
    (JSNumber.ofNat ms).le (waitDelay (JSNumber.ofNat ms) random true) = true ∧
    (waitDelay (JSNumber.ofNat ms) random true).le (JSNumber.ofNat 13000) = true := by
  obtain ⟨v0, v1, -, -, -, -, v13⟩ := JSNumber.ofNat_backoff
  rw [v0] at h0
  rw [v1] at h1
  rw [hv, v13]
  cases random with
  | nan => simp [JSNumber.le] at h0
  | inf b => cases b <;> simp [JSNumber.le, JSNumber.lt] at h0 h1
  | fin k =>
    simp only [JSNumber.le, JSNumber.lt, decide_eq_true_eq, Nat.cast_zero] at h0 h1
    obtain ⟨n, rfl⟩ := Int.eq_ofNat_of_zero_le h0
    have hn : n ≤ unitsPerOne := by exact_mod_cast h1.le
    obtain ⟨r, hr, hr1, hr2⟩ := waitDelay_bounds ms n (by omega) hn
    rw [hr]
    simp only [JSNumber.le, decide_eq_true_eq]
    constructor
    · exact_mod_cast hr1
    · exact_mod_cast hr2.trans (Nat.mul_le_mul_right _ hms)

/-- The delay after a base wait of 12000 ms with the largest random number. -/
theorem waitDelay_largestRandom :
    largestRandom = JSNumber.ofRatio false 9007199254740991 9007199254740992 ∧
    numberToString largestRandom = "0.9999999999999999".toList ∧
    (JSNumber.ofNat 0).le largestRandom = true ∧
    largestRandom.lt (JSNumber.ofNat 1) = true ∧
    largestRandom.mul (JSNumber.ofNat 1000) = numericLiteral "999.9999999999999" ∧
    waitDelay (JSNumber.ofNat 12000) largestRandom true = JSNumber.ofNat 13000 := by
  decide

/-- C17: counterexample to "with the jitter the actual wait is below 13000 ms". When
`Math.random()` gives `1 - 2^-53`, the jitter `random * 1000` is `999.9999999999999`, and
after the base wait of 12000 ms of attempt 2 the sum `ms + random * 1000` rounds, in
binary64, to exactly 13000: the delay is not below 13000. -/
theorem rateLimitBackoff_jitter_counterexample :
    largestRandom = JSNumber.ofRatio false 9007199254740991 9007199254740992 ∧
    (JSNumber.ofNat 0).le largestRandom = true ∧
    largestRandom.lt (JSNumber.ofNat 1) = true ∧
    (largestRandom.mul (JSNumber.ofNat 1000)).lt (JSNumber.ofNat 1000) = true ∧
    rateLimitBackoff 2 = 12000 ∧
    waitDelay (JSNumber.ofNat (rateLimitBackoff 2)) largestRandom true = JSNumber.ofNat 13000 ∧
    (waitDelay (JSNumber.ofNat (rateLimitBackoff 2)) largestRandom true).lt
      (JSNumber.ofNat 13000) = false := by
  decide

/-- C17 (amended): the base wait after a 429 on attempt a is min(3000 * 2^a, 12000) ms,
that is 3000, 6000, and 12000 from a = 2 on; it does not decrease with a and never exceeds
12000. With the jitter `Math.random() * 1000` added in binary64, for a random number
`0 ≤ random < 1`, the delay is at least the base wait and at most 13000 ms, and 13000 ms
is reached. The base wait is the wait `fetchPatients` makes after a 429. -/
theorem rateLimitBackoff_values (a : Nat) :
    rateLimitBackoff a = min (3000 * 2 ^ a) 12000 ∧
    rateLimitBackoff 0 = 3000 ∧ rateLimitBackoff 1 = 6000 ∧
    (2 ≤ a → rateLimitBackoff a = 12000) ∧
    (∀ b, a ≤ b → rateLimitBackoff a ≤ rateLimitBackoff b) ∧
    rateLimitBackoff a ≤ 12000 ∧
    (∀ random : JSNumber,
      (JSNumber.ofNat 0).le random = true → random.lt (JSNumber.ofNat 1) = true →
      (JSNumber.ofNat (rateLimitBackoff a)).le
        (waitDelay (JSNumber.ofNat (rateLimitBackoff a)) random true) = true ∧
      (waitDelay (JSNumber.ofNat (rateLimitBackoff a)) random true).le
        (JSNumber.ofNat 13000) = true) ∧
    (∃ random : JSNumber,
      (JSNumber.ofNat 0).le random = true ∧ random.lt (JSNumber.ofNat 1) = true ∧
      waitDelay (JSNumber.ofNat (rateLimitBackoff 2)) random true = JSNumber.ofNat 13000) ∧
    (∀ (σ α : Type) (respond : Upstream σ α) (page limit retries fuel : Nat) (s s' : σ)
      (lastError : Option FetchError) (trace : List Event),
      a < retries → respond s page limit = (.status 429, s') →
      fetchPatientsFrom respond page limit retries (fuel + 1) a s lastError trace =
        fetchPatientsFrom respond page limit retries fuel (a + 1) s' lastError
          (trace ++ [Event.request page limit] ++ [Event.wait (rateLimitBackoff a)])) ∧
    (fetchPatients (α := Nat) scriptedUpstream 1 20 5
        [.status 429, .status 429, .status 429, .status 429, .status 429]).trace =
      [.request 1 20, .wait 3000, .request 1 20, .wait 6000, .request 1 20, .wait 12000,
        .request 1 20, .wait 12000, .request 1 20, .wait 12000] := by
  have hle : rateLimitBackoff a ≤ 12000 := by simp only [rateLimitBackoff]; omega
  obtain ⟨-, -, -, v3, v6, v12, -⟩ := JSNumber.ofNat_backoff
  refine ⟨rfl, by decide, by decide, rateLimitBackoff_of_two_le a, rateLimitBackoff_mono a, hle,
    ?_, ⟨largestRandom, waitDelay_largestRandom.2.2.1, waitDelay_largestRandom.2.2.2.1,
      waitDelay_largestRandom.2.2.2.2.2⟩, ?_, by decide⟩
  · intro random h0 h1
    rcases rateLimitBackoff_cases a with h | h | h <;> rw [h]
    · exact waitDelay_le 3000 (by decide) v3 random h0 h1
    · exact waitDelay_le 6000 (by decide) v6 random h0 h1
    · exact waitDelay_le 12000 (by decide) v12 random h0 h1
  · intro σ α respond page limit retries fuel s s' lastError trace hlt hr
    rw [fetchPatientsFrom, if_pos hlt]
    simp only [hr, ↓reduceIte]

/-! ## fetchPatientsCarefully -/

/-- One turn of the loop of `fetchPatientsCarefully`, by what `fetchPatients` gave: the
loop stops after a page with data that fills the target or reports no next page, and goes
on to the next page otherwise, an error included. -/
theorem fetchPagesFrom_succ {σ α : Type} (respond : Upstream σ α) (targetCount maxPages : Nat)
    (fuel page : Nat) (run : CollectRun σ α) (h : page ≤ maxPages) :
    ∃ (next : CollectRun σ α) (stop : Bool),
      next.pages = run.pages ++
        [{ page := page, limit := min 20 (targetCount - run.allPatients.length),
           result := (fetchPatients respond page
             (min 20 (targetCount - run.allPatients.length)) 5 run.state).result }] ∧
      next.allPatients = run.allPatients ++
        (PageLog.mk page (min 20 (targetCount - run.allPatients.length))
          (fetchPatients respond page
            (min 20 (targetCount - run.allPatients.length)) 5 run.state).result).records ∧
      (stop = true → ¬ ∃ e, (fetchPatients respond page
        (min 20 (targetCount - run.allPatients.length)) 5 run.state).result = .error e) ∧
      fetchPagesFrom respond targetCount maxPages (fuel + 1) page run =
        if stop then next else fetchPagesFrom respond targetCount maxPages fuel (page + 1) next := by
  rw [fetchPagesFrom, if_pos h]
  simp only []
  generalize fetchPatients respond page (min 20 (targetCount - run.allPatients.length)) 5
    run.state = fetched
  generalize (if page > 1 then run.trace ++ [Event.wait (4000 + ((page : ℚ) - 1) * 2000)]
    else run.trace) = waited
  rcases hres : fetched.result with e | response
  · refine ⟨CollectRun.mk run.allPatients fetched.state (waited ++ fetched.trace)
      (run.pages ++ [PageLog.mk page (min 20 (targetCount - run.allPatients.length))
        (.error e)]), false, rfl, ?_, ?_, ?_⟩
    · simp [PageLog.records]
    · simp
    · simp
  · rcases hdata : response.data with _ | data
    · refine ⟨CollectRun.mk run.allPatients fetched.state (waited ++ fetched.trace)
        (run.pages ++ [PageLog.mk page (min 20 (targetCount - run.allPatients.length))
          (.ok response)]), false, rfl, ?_, ?_, ?_⟩
      · simp [PageLog.records, hdata]
      · simp
      · simp [hdata]
    · by_cases hstop : (run.allPatients ++ data).length ≥ targetCount ∨
          response.pagination = some false
      · refine ⟨CollectRun.mk (run.allPatients ++ data) fetched.state (waited ++ fetched.trace)
          (run.pages ++ [PageLog.mk page (min 20 (targetCount - run.allPatients.length))
            (.ok response)]), true, rfl, ?_, ?_, ?_⟩
        · simp [PageLog.records, hdata]
        · simp
        · simp only [hdata, ↓reduceIte, if_pos hstop]
      · refine ⟨CollectRun.mk (run.allPatients ++ data) fetched.state (waited ++ fetched.trace)
          (run.pages ++ [PageLog.mk page (min 20 (targetCount - run.allPatients.length))
            (.ok response)]), false, rfl, ?_, ?_, ?_⟩
        · simp [PageLog.records, hdata]
        · simp
        · simp only [hdata, Bool.false_eq_true, ↓reduceIte, if_neg hstop]

/-- The loop of `fetchPatientsCarefully` with enough turns left: the calls it adds are for
consecutive pages from `page` on, `allPatients` grows by their records in that order, a
call is made if a page is left, and a call that failed on a page before the last planned
one is followed by the call for the next page. -/
theorem fetchPagesFrom_spec {σ α : Type} (respond : Upstream σ α) (targetCount maxPages : Nat)
    (fuel : Nat) : ∀ (page : Nat) (run : CollectRun σ α), maxPages + 1 ≤ page + fuel →
    ∃ added : List (PageLog α),
      (fetchPagesFrom respond targetCount maxPages fuel page run).pages = run.pages ++ added ∧
      (fetchPagesFrom respond targetCount maxPages fuel page run).allPatients =
        run.allPatients ++ added.flatMap PageLog.records ∧
      added.length ≤ maxPages + 1 - page ∧
      (page ≤ maxPages → added ≠ []) ∧
      (∀ i log, added[i]? = some log → log.page = page + i) ∧
      (∀ i log, added[i]? = some log → (∃ e, log.result = .error e) → log.page < maxPages →
        i + 1 < added.length) := by
  induction fuel with
  | zero =>
    intro page run hfuel
    refine ⟨[], by simp [fetchPagesFrom], by simp [fetchPagesFrom], by simp,
      fun h => by omega, by simp, by simp⟩
  | succ fuel ih =>
    intro page run hfuel
    by_cases h : page ≤ maxPages
    · obtain ⟨next, stop, hp, ha, hs, heq⟩ :=
        fetchPagesFrom_succ respond targetCount maxPages fuel page run h
      rw [heq]
      cases stop with
      | true =>
        refine ⟨[PageLog.mk page (min 20 (targetCount - run.allPatients.length))
          (fetchPatients respond page (min 20 (targetCount - run.allPatients.length)) 5
            run.state).result], by simpa using hp, by simpa using ha, by simp; omega, by simp,
          ?_, ?_⟩
        · intro i log hi
          cases i with
          | zero => simp at hi; subst hi; rfl
          | succ i => simp at hi
        · intro i log hi he
          cases i with
          | zero => simp at hi; subst hi; exact absurd he (hs rfl)
          | succ i => simp at hi
      | false =>
        obtain ⟨added, a1, a2, a3, a4, a5, a6⟩ := ih (page + 1) next (by omega)
        simp only [Bool.false_eq_true, ↓reduceIte]
        refine ⟨PageLog.mk page (min 20 (targetCount - run.allPatients.length))
          (fetchPatients respond page (min 20 (targetCount - run.allPatients.length)) 5
            run.state).result :: added, ?_, ?_, by simp; omega, by simp, ?_, ?_⟩
        · rw [a1, hp]; simp
        · rw [a2, ha]; simp
        · intro i log hi
          cases i with
          | zero => simp at hi; subst hi; rfl
          | succ i =>
            simp only [List.getElem?_cons_succ] at hi
            have := a5 i log hi
            omega
        · intro i log hi he hlt
          cases i with
          | zero =>
            simp at hi
            subst hi
            have : added ≠ [] := a4 (by simpa using hlt)
            have := List.length_pos.mpr this
            simp only [List.length_cons]
            omega
          | succ i =>
            simp only [List.getElem?_cons_succ] at hi
            have := a6 i log hi he hlt
            simp only [List.length_cons]
            omega
    · refine ⟨[], ?_, ?_, by simp, fun h' => absurd h' h, by simp, by simp⟩
      · rw [fetchPagesFrom, if_neg h]; simp
      · rw [fetchPagesFrom, if_neg h]; simp

theorem plannedPages_pos (targetCount : Nat) (h : 1 ≤ targetCount) :
    1 ≤ plannedPages targetCount := by
  simp only [plannedPages]
  omega

/-- The run of `fetchPatientsCarefully`: `allPatients` holds the records of the calls in
order, the calls are for the pages 1, 2, ... and are at most as many as planned, and a
call that failed on a page before the last planned one is followed by the next call. -/
theorem collectRun_spec {σ α : Type} (respond : Upstream σ α) (targetCount : Nat) (s : σ) :
    (collectRun respond targetCount s).allPatients =
      (collectRun respond targetCount s).pages.flatMap PageLog.records ∧
    (collectRun respond targetCount s).pages.length ≤ plannedPages targetCount ∧
    (∀ i log, (collectRun respond targetCount s).pages[i]? = some log → log.page = i + 1) ∧
    (∀ i log, (collectRun respond targetCount s).pages[i]? = some log →
      (∃ e, log.result = .error e) → log.page < plannedPages targetCount →
      i + 1 < (collectRun respond targetCount s).pages.length) := by
  obtain ⟨added, a1, a2, a3, _, a5, a6⟩ :=
    fetchPagesFrom_spec respond targetCount (plannedPages targetCount)
      (plannedPages targetCount) 1
      { allPatients := [], state := s, trace := [], pages := [] } (by omega)
  simp only [List.nil_append] at a1 a2
  unfold collectRun
  rw [a1, a2]
  refine ⟨rfl, by omega, ?_, a6⟩
  intro i log hi
  have := a5 i log hi
  omega

/-- C11: `fetchPatientsCarefully(target)` returns at most `target` records, a prefix of
the records accumulated from the calls for pages 1, 2, ... in that order, whatever the
upstream does; a page of thirty records for a target of five is cut to five. -/
theorem fetchPatientsCarefully_at_most_target {σ α : Type} (respond : Upstream σ α)
    (targetCount : Nat) (s : σ) :
    (∃ records, fetchPatientsCarefully respond targetCount s = .ok records ∧
      records.length ≤ targetCount ∧
      records <+: (collectRun respond targetCount s).allPatients) ∧
    (collectRun respond targetCount s).allPatients =
      (collectRun respond targetCount s).pages.flatMap PageLog.records ∧
    (∀ i log, (collectRun respond targetCount s).pages[i]? = some log → log.page = i + 1) ∧
    fetchPatientsCarefully scriptedUpstream 5
        [.ok { data := some (List.range 30), pagination := some true }] =
      .ok [0, 1, 2, 3, 4] ∧
    fetchPatientsCarefully (α := Nat) scriptedUpstream 0 [] = .ok [] := by
  obtain ⟨h1, _, h3, _⟩ := collectRun_spec respond targetCount s
  refine ⟨⟨_, rfl, ?_, List.take_prefix _ _⟩, h1, h3, by decide, by decide⟩
  simp only [List.length_take]
  omega

/-- C13 fails on the code: `fetchPatientsCarefully` has no way to throw, so it returns
whatever the upstream does; when no request is ever answered it sends its fifteen
requests for a target of 50 and returns the empty list. -/
theorem fetchPatientsCarefully_returns_empty :
    (∀ (σ α : Type) (respond : Upstream σ α) (targetCount : Nat) (s : σ),
      ∃ records, fetchPatientsCarefully respond targetCount s = .ok records) ∧
    fetchPatientsCarefully (α := Nat) scriptedUpstream 50 [] = .ok [] ∧
    requestCount (collectRun (α := Nat) scriptedUpstream 50 []).trace = 15 ∧
    requestedPages (collectRun (α := Nat) scriptedUpstream 50 []) = [(1, 20), (2, 20), (3, 20)] ∧
    (collectRun (α := Nat) scriptedUpstream 50 []).pages.map (fun log => log.result) =
      [.error .transport, .error .transport, .error .transport] := by
  refine ⟨fun σ α respond targetCount s => ⟨_, rfl⟩, by decide, by decide, by decide, by decide⟩

/-- C12 fails on the code: against 45 records served by offset pagination, a target of 50
makes the third call ask for page 3 with limit 10, which is the records at positions
20..29 again; 50 records are returned, ten of them twice, and the records 40..44 never.
With a target of 100 every call has limit 20 and the 45 records are returned. -/
theorem fetchPatientsCarefully_offset_duplicates :
    fetchPatientsCarefully (offsetUpstream (List.range 45)) 50 () =
      .ok (List.range 40 ++ [20, 21, 22, 23, 24, 25, 26, 27, 28, 29]) ∧
    requestedPages (collectRun (offsetUpstream (List.range 45)) 50 ()) =
      [(1, 20), (2, 20), (3, 10)] ∧
    fetchPatientsCarefully (offsetUpstream (List.range 45)) 50 () ≠ .ok (List.range 45) ∧
    fetchPatientsCarefully (offsetUpstream (List.range 45)) 100 () = .ok (List.range 45) := by
  refine ⟨by decide, by decide, by decide, by decide⟩

/-- C14: for a target of at least 1, `fetchPatientsCarefully` returns (it does not throw)
the records of its calls, in page order, cut to the target; a call that failed on a page
before the last planned one is followed by the call for the next page; and the result is
not empty as soon as one call brought a record. -/
theorem fetchPatientsCarefully_skips_failed_pages {σ α : Type} (respond : Upstream σ α)
    (targetCount : Nat) (s : σ) (h : 1 ≤ targetCount) :
    fetchPatientsCarefully respond targetCount s =
      .ok (((collectRun respond targetCount s).pages.flatMap PageLog.records).take
        targetCount) ∧
    (∀ i log, (collectRun respond targetCount s).pages[i]? = some log →
      (∃ e, log.result = .error e) → log.page < plannedPages targetCount →
      ∃ next, (collectRun respond targetCount s).pages[i + 1]? = some next ∧
        next.page = log.page + 1) ∧
    ((∃ log ∈ (collectRun respond targetCount s).pages, log.records ≠ []) →
      ∃ r rs, fetchPatientsCarefully respond targetCount s = .ok (r :: rs)) := by
  obtain ⟨h1, _, h3, h4⟩ := collectRun_spec respond targetCount s
  refine ⟨?_, ?_, ?_⟩
  · unfold fetchPatientsCarefully
    rw [h1]
  · intro i log hi he hlt
    have hlen := h4 i log hi he hlt
    obtain ⟨next, hn⟩ : ∃ next, (collectRun respond targetCount s).pages[i + 1]? = some next :=
      ⟨_, List.getElem?_eq_getElem hlen⟩
    refine ⟨next, hn, ?_⟩
    rw [h3 i log hi, h3 (i + 1) next hn]
  · rintro ⟨log, hmem, hne⟩
    have hall : (collectRun respond targetCount s).allPatients ≠ [] := by
      rw [h1]
      intro hnil
      rw [List.flatMap_eq_nil_iff] at hnil
      exact hne (hnil log hmem)
    unfold fetchPatientsCarefully
    obtain ⟨r, rs, hr⟩ := List.exists_cons_of_ne_nil hall
    obtain ⟨k, hk⟩ : ∃ k, targetCount = k + 1 := ⟨targetCount - 1, by omega⟩
    rw [hr, hk]
    exact ⟨r, rs.take k, rfl⟩

/-- C14 on a run for a target of 50 in which page 1 fails on all five attempts, page 2
brings twenty records and page 3 fails: the three pages are requested in turn and the
twenty records are returned. -/
theorem fetchPatientsCarefully_skips_failed_pages_witness :
    (1 ≤ 50 ∧
      requestedPages (collectRun scriptedUpstream 50 failingFirstPageScript) =
        [(1, 20), (2, 20), (3, 20)] ∧
      fetchPatientsCarefully scriptedUpstream 50 failingFirstPageScript =
        .ok (List.range 20)) ∧
    (
fetchPatientsCarefully scriptedUpstream 50 failingFirstPageScript =
      .ok (((collectRun scriptedUpstream 50 failingFirstPageScript).pages.flatMap PageLog.records).take
        50) ∧
    (∀ i log, (collectRun scriptedUpstream 50 failingFirstPageScript).pages[i]? = some log →
      (∃ e, log.result = .error e) → log.page < plannedPages 50 →
      ∃ next, (collectRun scriptedUpstream 50 failingFirstPageScript).pages[i + 1]? = some next ∧
        next.page = log.page + 1) ∧
    ((∃ log ∈ (collectRun scriptedUpstream 50 failingFirstPageScript).pages, log.records ≠ []) →
      ∃ r rs, fetchPatientsCarefully scriptedUpstream 50 failingFirstPageScript = .ok (r :: rs))) :=
  ⟨⟨by decide, by decide, by decide⟩,
    fetchPatientsCarefully_skips_failed_pages scriptedUpstream 50 failingFirstPageScript
      (by decide)⟩

end HealthCare
